import Mathlib

/-!
Verification development for the parallel debug orchestration engine of the
`app_template` repository (`debug_helpers/`).

The Python sources are shallowly embedded:
* Python dicts become insertion-ordered association lists (`List (K × V)`);
  writing to an existing key updates the value in place, writing a fresh key
  appends at the end — exactly the observable ordering semantics of dicts.
* Python floats become exact rationals (`ℚ`).
* Python exceptions become explicit error values (`Except` / sum types).
* Filesystem and subprocess effects are parameters of the model (a `World`
  record supplies the script-resolution function and the child-process
  outcome); everything else is pure state passing.
-/

namespace AppTemplate

/-! ## Ordered-dictionary helpers (model of Python `dict`)

`dset` mirrors `d[k] = v`: replace in place if the key exists, else append.
`dlookup` mirrors `d.get(k)`, `derase` mirrors `del d[k]` (no-op when the key
is absent, matching the guarded deletes in the sources), `dkeys` the key view.
-/

def dlookup {V : Type} : List (String × V) → String → Option V
  | [], _ => none
  | (k, v) :: t, key => if k = key then some v else dlookup t key

def dmem {V : Type} (key : String) (d : List (String × V)) : Bool :=
  (dlookup d key).isSome

def dset {V : Type} : List (String × V) → String → V → List (String × V)
  | [], key, v => [(key, v)]
  | (k, w) :: t, key, v => if k = key then (k, v) :: t else (k, w) :: dset t key v

def derase {V : Type} : List (String × V) → String → List (String × V)
  | [], _ => []
  | (k, w) :: t, key => if k = key then t else (k, w) :: derase t key

def dkeys {V : Type} (d : List (String × V)) : List String := d.map (·.1)

/-- `d.get(k, default)` -/
def dgetD {V : Type} (d : List (String × V)) (key : String) (dflt : V) : V :=
  (dlookup d key).getD dflt

/-- `defaultdict(list)`-style append: `d[k].append(v)` (first touch inserts). -/
def dappend {V : Type} (d : List (String × V)) (key : String) (v : V) [Append V]
    (empty : V) : List (String × V) :=
  dset d key ((dgetD d key empty) ++ v)

/-! ## String helpers

Lean's built-in `String.toLower`/ordering do not reduce in the kernel, so the
character-level operations used by the Python sources (`str.lower`,
`str.strip`, `str.split`, substring containment, lexicographic comparison)
are implemented over `List Char`.  ASCII behaviour coincides with Python's.
-/

def lowerStr (s : String) : String := ⟨s.data.map Char.toLower⟩

def startsWithCh : List Char → List Char → Bool
  | [], _ => true
  | _ :: _, [] => false
  | a :: as, b :: bs => a == b && startsWithCh as bs

/-- `pat in text` (contiguous substring containment). -/
def hasInfixCh (pat : List Char) : List Char → Bool
  | [] => startsWithCh pat []
  | c :: cs => startsWithCh pat (c :: cs) || hasInfixCh pat cs

/-- Python `needle in haystack` on strings. -/
def strContains (haystack needle : String) : Bool :=
  hasInfixCh needle.data haystack.data

/-- Python `str.strip()` (whitespace at both ends). -/
def stripStr (s : String) : String :=
  ⟨(((s.data.dropWhile Char.isWhitespace).reverse.dropWhile Char.isWhitespace).reverse)⟩

/-- Python `str.split()` with no argument: split on whitespace runs,
dropping empty pieces.  `acc` holds the reversed characters of the word in
progress (structural recursion so that concrete splits reduce in the
kernel). -/
def splitWsAux : List Char → List Char → List String
  | [], acc => if acc.isEmpty then [] else [⟨acc.reverse⟩]
  | c :: cs, acc =>
    if Char.isWhitespace c then
      if acc.isEmpty then splitWsAux cs []
      else ⟨acc.reverse⟩ :: splitWsAux cs []
    else splitWsAux cs (c :: acc)

def splitWs (s : String) : List String := splitWsAux s.data []

/-- Lexicographic `≤` on strings by code point (Python string comparison). -/
def strLeCh : List Char → List Char → Bool
  | [], _ => true
  | _ :: _, [] => false
  | a :: as, b :: bs => if a == b then strLeCh as bs else decide (a < b)

def strLe (a b : String) : Bool := strLeCh a.data b.data

/-- Python `str.splitlines()` restricted to `\n` terminators: like
`splitOn "\n"` but without a trailing empty piece. -/
def pySplitlines (s : String) : List String :=
  let parts := s.splitOn "\n"
  if parts.getLast? = some "" then parts.dropLast else parts

/-- Stable insertion into an ascending run: `x` goes after existing elements
it does not strictly precede. -/
def insertAsc {α : Type} (le : α → α → Bool) (x : α) : List α → List α
  | [] => [x]
  | y :: ys => if le y x then y :: insertAsc le x ys else x :: y :: ys

/-- Stable ascending sort (insertion sort).  Python's `list.sort` is a stable
sort, and a stable sort's output is uniquely determined by the key order, so
this is observationally the sort used by the sources. -/
def stableSortBy {α : Type} (le : α → α → Bool) (l : List α) : List α :=
  l.foldl (fun acc x => insertAsc le x acc) []

/-! ## `parallel_config.py` -/

/-- `TestType` enum. -/
inductive TestType
  | UI_FLOW | API_TEST | DATABASE | INTEGRATION | PERFORMANCE | SECURITY
deriving DecidableEq, Repr

/-- Python `str(test_type)` on an enum member (used in the worker's
unknown-test-type error message). -/
def TestType.pyStr : TestType → String
  | .UI_FLOW => "TestType.UI_FLOW"
  | .API_TEST => "TestType.API_TEST"
  | .DATABASE => "TestType.DATABASE"
  | .INTEGRATION => "TestType.INTEGRATION"
  | .PERFORMANCE => "TestType.PERFORMANCE"
  | .SECURITY => "TestType.SECURITY"

/-- `TestScenario` dataclass (fields relevant to the engine; the resource and
retry hints are carried but never read by the modelled code paths). -/
structure TestScenario where
  name : String
  test_type : TestType
  test_function : String
  user_type : Option String := none
  locale : String := "he"
  data_set : String := "standard"
  timeout : Nat := 120
  retry_on_failure : Bool := true
  max_retries : Nat := 2
deriving DecidableEq, Repr

/-- `ResourceConfig` dataclass.  `max_workers` is auto-detected from the CPU
count in Python when `None`; the model keeps it as a plain field since every
claim fixes it explicitly. -/
structure ResourceConfig where
  max_workers : Nat := 4
  max_browsers_per_worker : Nat := 1
  base_port : Nat := 3100
  port_range : Nat := 100
  database_pool_size : Nat := 10
  memory_limit_per_worker_mb : Nat := 1024
deriving DecidableEq, Repr

/-- Errors raised by `ParallelDebugConfig.allocate_ports`:
`ValueError(f"Ports already allocated for worker {worker_id}")` and
`RuntimeError("Port range exhausted")`. -/
inductive PortError
  | valueError (msg : String)
  | runtimeError (msg : String)
deriving DecidableEq, Repr

/-- Mutable state of `ParallelDebugConfig` (the scenario list is omitted:
no modelled operation reads it). -/
structure ParallelDebugConfig where
  resource_config : ResourceConfig
  allocated_ports : List (String × List Nat)
  next_port : Nat
deriving DecidableEq, Repr

/-- `ParallelDebugConfig.__init__`. -/
def mkParallelDebugConfig (rc : ResourceConfig := {}) : ParallelDebugConfig :=
  { resource_config := rc, allocated_ports := [], next_port := rc.base_port }

/-- The `for _ in range(count)` loop body of `allocate_ports`: accumulate
`count` ports starting at `nextPort`, bailing out with `RuntimeError` when the
cursor reaches `bound = base_port + port_range`.  The cursor increments
survive a failed call (the Python loop mutates `self.next_port` before the
check that raises). -/
def allocPortsLoop (nextPort bound : Nat) : Nat → Option (List Nat) × Nat
  | 0 => (some [], nextPort)
  | n + 1 =>
    if nextPort ≥ bound then (none, nextPort)
    else
      let r := allocPortsLoop (nextPort + 1) bound n
      (r.1.map (fun ports => nextPort :: ports), r.2)

/-- `ParallelDebugConfig.allocate_ports(worker_id, count=2)`.  Returns the
raised exception or the allocated ports, together with the post-call state. -/
def allocate_ports (cfg : ParallelDebugConfig) (worker_id : String)
    (count : Nat := 2) : Except PortError (List Nat) × ParallelDebugConfig :=
  if dmem worker_id cfg.allocated_ports then
    (.error (.valueError ("Ports already allocated for worker " ++ worker_id)), cfg)
  else
    let bound := cfg.resource_config.base_port + cfg.resource_config.port_range
    let r := allocPortsLoop cfg.next_port bound count
    match r.1 with
    | none =>
      (.error (.runtimeError "Port range exhausted"), { cfg with next_port := r.2 })
    | some ports =>
      (.ok ports,
        { cfg with next_port := r.2,
                   allocated_ports := dset cfg.allocated_ports worker_id ports })

/-- `ParallelDebugConfig.release_ports(worker_id)`. -/
def release_ports (cfg : ParallelDebugConfig) (worker_id : String) :
    ParallelDebugConfig :=
  if dmem worker_id cfg.allocated_ports then
    { cfg with allocated_ports := derase cfg.allocated_ports worker_id }
  else cfg

/-- One external call against the configuration: the orchestrator either
allocates ports for a worker or releases them. -/
inductive ConfigOp
  | alloc (worker_id : String) (count : Nat)
  | release (worker_id : String)
deriving DecidableEq, Repr

/-- Run a call sequence, discarding results/raised errors (callers catch the
exceptions and continue, `parallel_debugger.py` lines 211-214). -/
def runConfigOps (cfg : ParallelDebugConfig) : List ConfigOp → ParallelDebugConfig
  | [] => cfg
  | .alloc wid count :: t => runConfigOps (allocate_ports cfg wid count).2 t
  | .release wid :: t => runConfigOps (release_ports cfg wid) t

/-! ## Port-allocation invariant (claims about `allocate_ports`/`release_ports`)

The invariant maintained by every call sequence: every held port is below the
cursor, and the held port lists are pairwise disjoint.
-/

def portsDisjoint (a b : String × List Nat) : Prop :=
  ∀ p, p ∈ a.2 → p ∉ b.2

def ConfigInv (cfg : ParallelDebugConfig) : Prop :=
  (∀ e ∈ cfg.allocated_ports, ∀ p ∈ e.2, p < cfg.next_port) ∧
    cfg.allocated_ports.Pairwise portsDisjoint

/-! ## `debug_worker.py`

The worker is embedded as a pure function of a `World`: the filesystem search
performed by `_find_test_script` and the behaviour of the launched child
process are the only effects that influence the worker's control flow, so
they are parameters.  Session/state persistence, status-queue sends (all
wrapped in `try/except: pass` in the source) and the environment-variable
plumbing do not affect the result record's `success`/`error`/`logs` fields
and are not modelled; `_parse_test_output` (the `METRIC:`/`FINDING:`/
`ARTIFACT:` marker scan) only adds metrics/findings/artifacts on the success
path and swallows every exception, so it cannot change the modelled fields
either.
-/

/-- Python `str.endswith` (kernel-computable). -/
def strEndsWith (s suffix : String) : Bool :=
  startsWithCh suffix.data.reverse s.data.reverse

/-- The exceptions raised on the worker's execution paths; `str(e)` of each
is its message. -/
inductive PyExc
  | fileNotFound (msg : String)
  | valueError (msg : String)
  | timeoutError (msg : String)
  | runtimeError (msg : String)
deriving DecidableEq, Repr

/-- Python `str(e)`. -/
def PyExc.str : PyExc → String
  | .fileNotFound m => m
  | .valueError m => m
  | .timeoutError m => m
  | .runtimeError m => m

/-- Behaviour of the child process launched for a script: either
`subprocess.TimeoutExpired` is raised by `communicate`, or the process exits
with a return code and captured stdout/stderr. -/
inductive ChildOutcome
  | timeoutExpired
  | exited (code : Int) (stdout stderr : String)

/-- The worker's effectful environment: `resolve` is the outcome of
`_find_test_script`'s search over the fixed test-script roots, `childRun`
the outcome of running a given script as a child process. -/
structure World where
  resolve : String → Option String
  childRun : String → ChildOutcome

/-- A finding recorded in the session state
(`DebugSessionState.add_finding(type, description, evidence, fix_suggestion)`;
the description argument is mandatory in that API, hence a total field). -/
structure Finding where
  ftype : String := "observation"
  description : String
  evidence : Option String := none
  fix_suggestion : Option String := none
  timestamp : Option String := none
deriving DecidableEq, Repr

/-- The slice of `DebugSessionState` the worker writes and
`_send_final_result` reads back: checkpoint names and findings. -/
structure WorkerState where
  checkpoints : List String := []
  findings : List Finding := []
deriving DecidableEq, Repr

def createCheckpoint (st : WorkerState) (name : String) : WorkerState :=
  { st with checkpoints := st.checkpoints ++ [name] }

def addFinding (st : WorkerState) (ftype description : String)
    (evidence : Option String := none) (fix_suggestion : Option String := none) :
    WorkerState :=
  { st with findings := st.findings ++
      [{ ftype := ftype, description := description, evidence := evidence,
         fix_suggestion := fix_suggestion }] }

/-- Result of `_execute_test_script`: the raised exception (if any), the
lines appended to `result.logs` (they persist even when the call raises
after capture), and whether `process.kill()` was invoked (ghost flag for the
timeout path). -/
structure ExecEffects where
  outcome : Except PyExc Unit
  logs : List String
  killed : Bool

/-- `DebugWorker._execute_test_script`.  The `.py`/`.js` command branches
are merged (the interpreter choice does not change the modelled outcome);
any other extension raises `ValueError` before the child is launched.  On
`TimeoutExpired` the child is killed and `TimeoutError` is raised from the
handler (so it propagates — raises inside an `except` clause are not caught
by the later `except Exception` clause).  A non-zero return code raises
`RuntimeError("Test script failed with code {c}")` inside the `try`, which
the `except Exception` handler wraps into
`RuntimeError("Failed to execute test script: ...")`; the model performs the
raise-catch-rewrap in one step. -/
def execute_test_script (w : World) (sc : TestScenario) (script : String) :
    ExecEffects :=
  if strEndsWith script ".py" || strEndsWith script ".js" then
    match w.childRun script with
    | .timeoutExpired =>
      { outcome := .error (.timeoutError
          ("Test exceeded timeout of " ++ toString sc.timeout ++ "s")),
        logs := [], killed := true }
    | .exited code out err =>
      let logs := (if out ≠ "" then pySplitlines out else []) ++
        (if err ≠ "" then (pySplitlines err).map (fun l => "STDERR: " ++ l) else [])
      if code ≠ 0 then
        { outcome := .error (.runtimeError
            ("Failed to execute test script: Test script failed with code " ++
              toString code)),
          logs := logs, killed := false }
      else
        { outcome := .ok (), logs := logs, killed := false }
  else
    { outcome := .error (.valueError ("Unsupported script type: " ++ script)),
      logs := [], killed := false }

/-- Outcome of one execution strategy (`_run_*_test`): raised exception,
session state after the strategy, accumulated log lines, kill flag. -/
structure StratResult where
  outcome : Except PyExc Unit
  state : WorkerState
  logs : List String
  killed : Bool

/-- `DebugWorker._run_ui_test`: direct extension match uses the
`test_function` as the script path, otherwise `_find_test_script` must
resolve it or `FileNotFoundError` is raised. -/
def run_ui_test (w : World) (sc : TestScenario) (st : WorkerState) : StratResult :=
  let tf := sc.test_function
  let script? :=
    if ¬ (strEndsWith tf ".py" || strEndsWith tf ".js") then w.resolve tf
    else some tf
  match script? with
  | none =>
    { outcome := .error (.fileNotFound ("Test script not found: " ++ tf)),
      state := st, logs := [], killed := false }
  | some script =>
    let ex := execute_test_script w sc script
    match ex.outcome with
    | .error e =>
      { outcome := .error e, state := st, logs := ex.logs, killed := ex.killed }
    | .ok _ =>
      { outcome := .ok (), state := createCheckpoint st "ui_test_complete",
        logs := ex.logs, killed := ex.killed }

/-- Shared shape of `_run_api_test` / `_run_integration_test` /
`_run_performance_test`: search for the script, execute it only when found
(an unresolved `test_function` is silently skipped), then checkpoint. -/
def runOptionalScriptTest (w : World) (sc : TestScenario) (st : WorkerState)
    (checkpoint : String) : StratResult :=
  match w.resolve sc.test_function with
  | some script =>
    let ex := execute_test_script w sc script
    match ex.outcome with
    | .error e =>
      { outcome := .error e, state := st, logs := ex.logs, killed := ex.killed }
    | .ok _ =>
      { outcome := .ok (), state := createCheckpoint st checkpoint,
        logs := ex.logs, killed := ex.killed }
  | none =>
    { outcome := .ok (), state := createCheckpoint st checkpoint,
      logs := [], killed := false }

def run_api_test (w : World) (sc : TestScenario) (st : WorkerState) : StratResult :=
  runOptionalScriptTest w sc st "api_test_complete"

def run_integration_test (w : World) (sc : TestScenario) (st : WorkerState) :
    StratResult :=
  runOptionalScriptTest w sc st "integration_test_complete"

def run_performance_test (w : World) (sc : TestScenario) (st : WorkerState) :
    StratResult :=
  runOptionalScriptTest w sc st "performance_test_complete"

/-- `_run_database_test`: no script is launched; a placeholder finding and a
checkpoint are recorded. -/
def run_database_test (st : WorkerState) : StratResult :=
  let st1 := addFinding st "observation" "Database test execution placeholder"
    (some "Would run database-specific tests here")
  { outcome := .ok (), state := createCheckpoint st1 "database_test_complete",
    logs := [], killed := false }

/-- The `if/elif` dispatch in `DebugWorker.run` (lines 99-110); the final
`else` raises `ValueError(f"Unknown test type: {self.scenario.test_type}")` —
`TestType.SECURITY` has no branch and falls through to it. -/
def dispatchScenario (w : World) (sc : TestScenario) (st : WorkerState) :
    StratResult :=
  if sc.test_type = TestType.UI_FLOW then run_ui_test w sc st
  else if sc.test_type = TestType.API_TEST then run_api_test w sc st
  else if sc.test_type = TestType.DATABASE then run_database_test st
  else if sc.test_type = TestType.INTEGRATION then run_integration_test w sc st
  else if sc.test_type = TestType.PERFORMANCE then run_performance_test w sc st
  else
    { outcome := .error (.valueError ("Unknown test type: " ++ sc.test_type.pyStr)),
      state := st, logs := [], killed := false }

/-- The final result record the worker pushes on the result queue (fields the
modelled paths write; `killed` is a ghost observation of `process.kill()`,
not a Python field). -/
structure WorkerResult where
  worker_id : String
  scenario_name : String
  success : Bool
  error : Option String
  logs : List String
  findings : List Finding
  checkpoints : List String
  killed : Bool
deriving DecidableEq, Repr

/-- `DebugWorker.run` followed by `_send_final_result`: dispatch on the test
type; an exception-free dispatch completes with `success=True`, any raised
exception is caught and recorded as `success=False` with `error=str(e)`;
cleanup then copies checkpoint names and findings out of the session state. -/
def runWorker (w : World) (worker_id : String) (sc : TestScenario) : WorkerResult :=
  let st0 : WorkerState := {}
  let d := dispatchScenario w sc st0
  match d.outcome with
  | .ok _ =>
    { worker_id := worker_id, scenario_name := sc.name, success := true,
      error := none, logs := d.logs, findings := d.state.findings,
      checkpoints := d.state.checkpoints, killed := d.killed }
  | .error e =>
    { worker_id := worker_id, scenario_name := sc.name, success := false,
      error := some e.str, logs := d.logs, findings := d.state.findings,
      checkpoints := d.state.checkpoints, killed := d.killed }

/-- The script a scenario's strategy will execute, if any: UI flow takes a
direct `.py`/`.js` `test_function` verbatim and otherwise requires the search
to succeed; API/integration/performance always search; database and the
undispatched security type never execute a script.  (Derived view of the six
strategies, used to state claims uniformly.) -/
def scriptFor (w : World) (sc : TestScenario) : Option String :=
  match sc.test_type with
  | .UI_FLOW =>
    if ¬ (strEndsWith sc.test_function ".py" || strEndsWith sc.test_function ".js")
    then w.resolve sc.test_function
    else some sc.test_function
  | .API_TEST => w.resolve sc.test_function
  | .INTEGRATION => w.resolve sc.test_function
  | .PERFORMANCE => w.resolve sc.test_function
  | .DATABASE => none
  | .SECURITY => none

/-- A world in which no test function resolves to a script and every child
process exits cleanly (used to instantiate worker claims). -/
def noResolveWorld : World :=
  { resolve := fun _ => none, childRun := fun _ => .exited 0 "" "" }

/-- A world whose only script "test_flow.py" times out (for the C6 witness). -/
def timeoutWorld : World :=
  { resolve := fun _ => some "test_flow.py", childRun := fun _ => .timeoutExpired }

/-- A world whose only script exits with code 2 (for the C6 witness). -/
def exitTwoWorld : World :=
  { resolve := fun _ => some "test_flow.py",
    childRun := fun _ => .exited 2 "boom" "trace" }

/-! ## A small regular-expression engine

`error_pattern_analyzer.py` classifies messages with `re`-module patterns
compiled with `re.I`.  The engine below decides `re.search` by Brzozowski
derivatives; lazy quantifiers (`.*?`) are irrelevant to match existence and
are modelled as `.*`, `.` is any character except a newline, and
case-insensitivity is modelled by lowercasing the subject and writing the
literals in lowercase (all pattern literals are ASCII).
-/

inductive Regex
  | emp
  | eps
  | pred (p : Char → Bool)
  | alt (r1 r2 : Regex)
  | cat (r1 r2 : Regex)
  | star (r : Regex)

def Regex.nullable : Regex → Bool
  | .emp => false
  | .eps => true
  | .pred _ => false
  | .alt r1 r2 => r1.nullable || r2.nullable
  | .cat r1 r2 => r1.nullable && r2.nullable
  | .star _ => true

def Regex.deriv : Regex → Char → Regex
  | .emp, _ => .emp
  | .eps, _ => .emp
  | .pred p, c => if p c then .eps else .emp
  | .alt r1 r2, c => .alt (r1.deriv c) (r2.deriv c)
  | .cat r1 r2, c =>
    if r1.nullable then .alt (.cat (r1.deriv c) r2) (r2.deriv c)
    else .cat (r1.deriv c) r2
  | .star r, c => .cat (r.deriv c) (.star r)

def Regex.matchList (r : Regex) (l : List Char) : Bool :=
  (l.foldl Regex.deriv r).nullable

/-- `re.search`: some (possibly empty) slice of the subject matches. -/
def regexSearch (r : Regex) (l : List Char) : Bool :=
  Regex.matchList
    (.cat (.star (.pred (fun _ => true))) (.cat r (.star (.pred (fun _ => true))))) l

/-- Case-insensitive search (`re.compile(..., re.I)` + `.search(s)`). -/
def searchCI (r : Regex) (s : String) : Bool :=
  regexSearch r (s.data.map Char.toLower)

/-- A string literal as a regex. -/
def rstr (s : String) : Regex :=
  s.data.foldr (fun c r => .cat (.pred (fun d => d == c)) r) .eps

/-- The regex `.` (any character but a newline). -/
def rany : Regex := .pred (fun c => c != '\n')

/-- A lazy `.*?`; match existence is unaffected by laziness. -/
def rdotstar : Regex := .star rany

/-- The character class `\d`. -/
def rdigit : Regex := .pred Char.isDigit

/-! ## `analyzers/error_pattern_analyzer.py` -/

/-- `(null|undefined|None).*?(reference|property|attribute)` -/
def patNullReference : Regex :=
  .cat (.alt (rstr "null") (.alt (rstr "undefined") (rstr "none")))
    (.cat rdotstar
      (.alt (rstr "reference") (.alt (rstr "property") (rstr "attribute"))))

/-- `(timeout|timed out|exceeded.*?timeout)` -/
def patTimeout : Regex :=
  .alt (rstr "timeout")
    (.alt (rstr "timed out") (.cat (rstr "exceeded") (.cat rdotstar (rstr "timeout"))))

/-- `(connection.*?(refused|failed|error)|ECONNREFUSED)` -/
def patConnection : Regex :=
  .alt
    (.cat (rstr "connection")
      (.cat rdotstar (.alt (rstr "refused") (.alt (rstr "failed") (rstr "error")))))
    (rstr "econnrefused")

/-- `(401|403|unauthorized|forbidden|auth.*?fail)` -/
def patAuthentication : Regex :=
  .alt (rstr "401")
    (.alt (rstr "403")
      (.alt (rstr "unauthorized")
        (.alt (rstr "forbidden") (.cat (rstr "auth") (.cat rdotstar (rstr "fail"))))))

/-- `(validation.*?(error|fail)|invalid.*?data)` -/
def patValidation : Regex :=
  .alt (.cat (rstr "validation") (.cat rdotstar (.alt (rstr "error") (rstr "fail"))))
    (.cat (rstr "invalid") (.cat rdotstar (rstr "data")))

/-- `(database|sql|query).*?(error|fail|exception)` -/
def patDatabase : Regex :=
  .cat (.alt (rstr "database") (.alt (rstr "sql") (rstr "query")))
    (.cat rdotstar (.alt (rstr "error") (.alt (rstr "fail") (rstr "exception"))))

/-- `(4\d..|5\d..).*?(error|fail)|api.*?error` where each `..` is the `2`-rep
of the digit class (alternation binds loosest, as in the source pattern). -/
def patApiError : Regex :=
  .alt
    (.cat
      (.alt (.cat (rstr "4") (.cat rdigit rdigit))
        (.cat (rstr "5") (.cat rdigit rdigit)))
      (.cat rdotstar (.alt (rstr "error") (rstr "fail"))))
    (.cat (rstr "api") (.cat rdotstar (rstr "error")))

/-- `ErrorPatternAnalyzer.__init__`: the fixed, ordered category → pattern
table. -/
def error_pattern_table : List (String × Regex) :=
  [("null_reference", patNullReference),
   ("timeout", patTimeout),
   ("connection", patConnection),
   ("authentication", patAuthentication),
   ("validation", patValidation),
   ("database", patDatabase),
   ("api_error", patApiError)]

/-- An entry of the `error_categories` map: either a categorized worker
error (`{'scenario':…,'error':…}`) or a categorized log line
(`{'scenario':…,'log':…}`). -/
inductive ErrEntry
  | fromError (scenario error : String)
  | fromLog (scenario log : String)
deriving DecidableEq, Repr

/-- `d[k].append(v)` on a `defaultdict(list)`: first touch inserts the key
at the end, later appends extend the held list. -/
def dpush {V : Type} (d : List (String × List V)) (k : String) (v : V) :
    List (String × List V) :=
  dset d k (dgetD d k [] ++ [v])

/-- The slice of the `metrics` dict of a worker-result record read by the
aggregation pipeline.  `performance` values are numeric (the analyzer's
`isinstance` filter drops anything else, so non-numeric values never reach
the statistics); `test_data` maps a category to its recorded item keys;
a missing key is `none`. -/
structure Metrics where
  performance : Option (List (String × ℚ)) := none
  test_data : Option (List (String × List String)) := none
  cache_hit_rate : Option ℚ := none
deriving DecidableEq, Repr

/-- A worker-result record as consumed by `ResultAggregator` (the serialized
dict of `WorkerResult.to_dict`); `.get` defaults are modelled by `Option`
(`none` = key absent or `None`). -/
structure WorkerResultRec where
  worker_id : String := ""
  scenario_name : String
  success : Bool
  start_time : Option String := none
  end_time : Option String := none
  duration : Option ℚ := none
  error : Option String := none
  logs : List String := []
  findings : List Finding := []
  metrics : Metrics := {}
  artifacts : List String := []
  session_id : Option String := none
  checkpoints : List String := []
deriving DecidableEq, Repr

/-- `Counter(error_messages)` (counts in first-occurrence order). -/
def counterOf (msgs : List String) : List (String × Nat) :=
  msgs.foldl
    (fun acc m =>
      match dlookup acc m with
      | some n => dset acc m (n + 1)
      | none => dset acc m 1) []

/-- `Counter.most_common(n)`: stable descending sort by count, first `n`. -/
def mostCommon (n : Nat) (counts : List (String × Nat)) : List (String × Nat) :=
  (stableSortBy (fun a b => b.2 ≤ a.2) counts).take n

/-- `ErrorPatternAnalyzer.analyze_errors`: for every failed result with a
truthy `error`, collect the message and append a categorized entry for every
matching pattern; log lines containing "error"/"fail" (case-insensitively)
are categorized the same way; finally rank raw messages by frequency. -/
def analyze_errors (worker_results : List WorkerResultRec) :
    List (String × Nat) × List (String × List ErrEntry) :=
  let acc := worker_results.foldl
    (fun (acc : List String × List (String × List ErrEntry)) r =>
      match r.success, r.error with
      | false, some err =>
        if err = "" then acc
        else
          let msgs := acc.1 ++ [err]
          let cats := error_pattern_table.foldl
            (fun cats cp =>
              if searchCI cp.2 err then dpush cats cp.1 (.fromError r.scenario_name err)
              else cats) acc.2
          let cats := r.logs.foldl
            (fun cats line =>
              if strContains (lowerStr line) "error" || strContains (lowerStr line) "fail"
              then
                error_pattern_table.foldl
                  (fun cats cp =>
                    if searchCI cp.2 line then
                      dpush cats cp.1 (.fromLog r.scenario_name line)
                    else cats) cats
              else cats) cats
          (msgs, cats)
      | _, _ => acc) ([], [])
  (mostCommon 5 (counterOf acc.1), acc.2)

/-! ## Claim C9: error-pattern classification -/

def c9TimeoutExceeded : WorkerResultRec :=
  { scenario_name := "auth_session_timeout", success := false,
    error := some "Timeout exceeded" }

def c9TimeoutWaiting : WorkerResultRec :=
  { scenario_name := "candidate_job_search", success := false,
    error := some "Timeout waiting for element" }

def c9Unauthorized : WorkerResultRec :=
  { scenario_name := "auth_token_validation", success := false,
    error := some "401 Unauthorized" }

def c9DbConnection : WorkerResultRec :=
  { scenario_name := "database_queries", success := false,
    error := some "Database connection failed" }

/-! ## `analyzers/findings_analyzer.py` -/

/-- The per-type finding dicts rebuilt by `analyze_findings`
(`{'scenario','description','evidence','fix_suggestion','timestamp'}`). -/
structure TypedFinding where
  scenario : String
  description : String
  evidence : Option String := none
  fix_suggestion : Option String := none
  timestamp : Option String := none
deriving DecidableEq, Repr

/-- `FindingsAnalyzer._are_similar`: normalize (`lower().strip()`), then
exact equality, substring containment either way, or word-set overlap ratio
`|intersection| / min(|words1|, |words2|)` strictly above `0.7` (floats
modelled as exact rationals). -/
def are_similar (text1 text2 : String) : Bool :=
  let t1 := stripStr (lowerStr text1)
  let t2 := stripStr (lowerStr text2)
  if t1 = t2 then true
  else if strContains t2 t1 || strContains t1 t2 then true
  else
    let words1 := (splitWs t1).eraseDups
    let words2 := (splitWs t2).eraseDups
    if words1.isEmpty || words2.isEmpty then false
    else
      let overlap := (words1.filter (fun w => words2.contains w)).length
      decide ((overlap : ℚ) / (min words1.length words2.length : Nat) > 7/10)

/-- A cluster emitted by `_group_similar_findings`. -/
structure GroupedFinding where
  description : String
  count : Nat
  scenarios : List String
  evidence : List String
deriving DecidableEq, Repr

/-- `f.get('evidence')` kept only when truthy (non-empty). -/
def truthyEvidence (f : TypedFinding) : Option String :=
  match f.evidence with
  | some e => if e = "" then none else some e
  | none => none

/-- The inner `for j, other in enumerate(findings[i+1:], i+1)` loop: collect
the not-yet-seen entries similar to the seed description, marking them seen. -/
def innerScan (desc : String) (rest : List (Nat × TypedFinding))
    (seen : List Nat) : List (Nat × TypedFinding) × List Nat :=
  rest.foldl
    (fun acc jf =>
      if acc.2.contains jf.1 then acc
      else if are_similar desc jf.2.description then
        (acc.1 ++ [jf], acc.2 ++ [jf.1])
      else acc)
    ([], seen)

/-- The outer loop of `_group_similar_findings` over the enumerated list. -/
def groupRec : List (Nat × TypedFinding) → List Nat → List GroupedFinding
  | [], _ => []
  | (i, f) :: rest, seen =>
    if seen.contains i then groupRec rest seen
    else
      let scan := innerScan f.description rest seen
      let similar := (i, f) :: scan.1
      if similar.length > 1 then
        { description := f.description, count := similar.length,
          scenarios := similar.map (fun p => p.2.scenario),
          evidence := similar.filterMap (fun p => truthyEvidence p.2) } ::
          groupRec rest scan.2
      else groupRec rest scan.2

def group_similar_findings (findings : List TypedFinding) : List GroupedFinding :=
  groupRec findings.enum []

/-- `FindingsAnalyzer.analyze_findings`: bucket findings by type (with the
`'observation'` default), collect `root_cause` findings verbatim, then for
each type with more than one entry keep the non-empty similarity grouping. -/
def analyze_findings (worker_results : List WorkerResultRec) :
    List (String × List GroupedFinding) × List Finding :=
  let acc := worker_results.foldl
    (fun (acc : List (String × List TypedFinding) × List Finding) r =>
      r.findings.foldl
        (fun acc f =>
          let byType := dpush acc.1 f.ftype
            { scenario := r.scenario_name, description := f.description,
              evidence := f.evidence, fix_suggestion := f.fix_suggestion,
              timestamp := f.timestamp }
          let roots := if f.ftype = "root_cause" then acc.2 ++ [f] else acc.2
          (byType, roots)) acc)
    ([], [])
  let common := acc.1.foldl
    (fun cf p =>
      if p.2.length > 1 then
        let grouped := group_similar_findings p.2
        if grouped.isEmpty then cf else cf ++ [(p.1, grouped)]
      else cf) []
  (common, acc.2)

/-- Ten-word descriptions sharing exactly seven words: the token-overlap
ratio is exactly 70%. -/
def cexDescA : String := "alpha beta gamma delta epsilon zeta eta theta iota kappa"

def cexDescB : String := "alpha beta gamma delta epsilon zeta eta xray yankee zulu"

/-! ## `analyzers/performance_analyzer.py` -/

/-- The `{'min','max','avg','values'}` statistics dict per metric name. -/
structure PerfStat where
  minV : ℚ
  maxV : ℚ
  avg : ℚ
  values : List ℚ
deriving DecidableEq, Repr

/-- Python `min` over a non-empty list (`0` is never reached: the source
guards with `if values:`). -/
def listMin : List ℚ → ℚ
  | [] => 0
  | x :: xs => xs.foldl min x

def listMax : List ℚ → ℚ
  | [] => 0
  | x :: xs => xs.foldl max x

def listSum (l : List ℚ) : ℚ := l.foldl (· + ·) 0

/-- `PerformanceAnalyzer.analyze_performance`: collect numeric
`metrics['performance']` values and `metrics['cache_hit_rate']` per key, sum
`metrics['test_data']` item counts per category, then emit min/max/avg/values
per collected key. -/
def analyze_performance (worker_results : List WorkerResultRec) :
    List (String × PerfStat) × List (String × Nat) :=
  let acc := worker_results.foldl
    (fun (acc : List (String × List ℚ) × List (String × Nat)) r =>
      let perf := match r.metrics.performance with
        | some kvs => kvs.foldl (fun d kv => dpush d kv.1 kv.2) acc.1
        | none => acc.1
      let tdu := match r.metrics.test_data with
        | some cats =>
          cats.foldl (fun t ci => dset t ci.1 (dgetD t ci.1 0 + ci.2.length)) acc.2
        | none => acc.2
      let perf := match r.metrics.cache_hit_rate with
        | some v => dpush perf "cache_hit_rates" v
        | none => perf
      (perf, tdu))
    ([], [])
  let performance_metrics := acc.1.foldl
    (fun pm p =>
      if p.2.isEmpty then pm
      else pm ++ [(p.1,
        { minV := listMin p.2, maxV := listMax p.2,
          avg := listSum p.2 / p.2.length, values := p.2 })]) []
  (performance_metrics, acc.2)

/-! ## `builders/timeline_builder.py` -/

/-- A timeline event dict; `success` is present only on `end` events and
`checkpoint` only on checkpoint events. -/
structure TimelineEvent where
  timestamp : String
  event : String
  scenario : String
  worker_id : String
  success : Option Bool := none
  checkpoint : Option String := none
deriving DecidableEq, Repr

/-- `TimelineBuilder.build_timeline`: `start`/`end` events guarded by truthy
timestamps, one `checkpoint` event per checkpoint stamped with the worker's
start time (the source indexes `worker_result['start_time']` directly there;
worker-produced records always carry it, modelled by `.getD ""`), then a
stable ascending sort by timestamp. -/
def build_timeline (worker_results : List WorkerResultRec) : List TimelineEvent :=
  let events := worker_results.foldl
    (fun evs r =>
      let evs := match r.start_time with
        | some ts =>
          if ts ≠ "" then
            evs ++ [{ timestamp := ts, event := "start",
                      scenario := r.scenario_name, worker_id := r.worker_id }]
          else evs
        | none => evs
      let evs := match r.end_time with
        | some ts =>
          if ts ≠ "" then
            evs ++ [{ timestamp := ts, event := "end",
                      scenario := r.scenario_name, worker_id := r.worker_id,
                      success := some r.success }]
          else evs
        | none => evs
      r.checkpoints.foldl
        (fun evs cp =>
          evs ++ [{ timestamp := r.start_time.getD "", event := "checkpoint",
                    scenario := r.scenario_name, worker_id := r.worker_id,
                    checkpoint := some cp }]) evs)
    []
  stableSortBy (fun a b => strLe a.timestamp b.timestamp) events

/-! ## `models/aggregated_results.py` and the per-scenario summary -/

/-- The per-scenario summary dict stored by `_calculate_basic_stats`. -/
structure ScenarioSummary where
  success : Bool
  duration : Option ℚ
  error : Option String
  worker_id : String
  session_id : Option String
  checkpoints : List String
  artifacts : List String
deriving DecidableEq, Repr

/-- `AggregatedResults` dataclass; floats are exact rationals and
`min_duration = none` models the `float('inf')` initial value (the only
non-finite value the field ever holds). -/
structure AggregatedResults where
  total_scenarios : Nat := 0
  successful_scenarios : Nat := 0
  failed_scenarios : Nat := 0
  success_rate : ℚ := 0
  total_duration : ℚ := 0
  average_duration : ℚ := 0
  min_duration : Option ℚ := none
  max_duration : ℚ := 0
  common_errors : List (String × Nat) := []
  error_patterns : List (String × List ErrEntry) := []
  common_findings : List (String × List GroupedFinding) := []
  root_causes : List Finding := []
  performance_metrics : List (String × PerfStat) := []
  test_data_usage : List (String × Nat) := []
  scenario_results : List (String × ScenarioSummary) := []
  timeline : List TimelineEvent := []
  recommendations : List String := []
deriving DecidableEq, Repr

/-! ## `generators/recommendation_generator.py` -/

/-- `RecommendationGenerator.generate_recommendations`: the fixed,
independently-evaluated rule list (`0.5` and `3` are exact in the rational
float model). -/
def generate_recommendations (results : AggregatedResults) : List String :=
  let recs : List String := []
  let recs := if results.success_rate < 1/2 then
    recs ++ [" Low success rate indicates systemic issues. Review common errors and root causes."]
    else recs
  let recs := if dmem "timeout" results.error_patterns then
    recs ++ [" Multiple timeout errors detected. Consider increasing timeouts or optimizing slow operations."]
    else recs
  let recs := if dmem "authentication" results.error_patterns then
    recs ++ [" Authentication errors across scenarios. Check credentials and session management."]
    else recs
  let recs := if dmem "database" results.error_patterns then
    recs ++ [" Database errors detected. Verify migrations are up-to-date and connections are properly configured."]
    else recs
  let recs := if results.max_duration > results.average_duration * 3 then
    recs ++ [" Large variance in execution times. Some scenarios are significantly slower than others."]
    else recs
  let recs := if ¬ results.root_causes.isEmpty then
    recs ++ [" " ++ toString results.root_causes.length ++
      " root causes identified. Prioritize fixing these issues."]
    else recs
  let recs := if ¬ results.common_findings.isEmpty then
    recs ++ [" Common findings across scenarios suggest shared underlying issues."]
    else recs
  recs

/-! ## `result_aggregator.py` -/

/-- The per-scenario summary built from one worker result. -/
def summaryOf (r : WorkerResultRec) : ScenarioSummary :=
  { success := r.success, duration := r.duration, error := r.error,
    worker_id := r.worker_id, session_id := r.session_id,
    checkpoints := r.checkpoints, artifacts := r.artifacts }

/-- `min(self.min_duration, duration)` with `none` as the `float('inf')`
initial value: the result is always finite. -/
def minUpd (m : Option ℚ) (d : ℚ) : Option ℚ :=
  some (match m with
    | none => d
    | some v => min v d)

/-- The loop body of `_calculate_basic_stats`: success/failure counts,
truthy-duration statistics, and the scenario-summary store, applied to the
running `aggregated_results` (the counters accumulate on top of whatever the
record already holds — the source never resets them). -/
def basicStep (agg : AggregatedResults) (r : WorkerResultRec) : AggregatedResults :=
  let agg :=
    if r.success then
      { agg with successful_scenarios := agg.successful_scenarios + 1 }
    else
      { agg with failed_scenarios := agg.failed_scenarios + 1 }
  let agg := match r.duration with
    | some d =>
      if d ≠ 0 then
        { agg with
            total_duration := agg.total_duration + d,
            min_duration := minUpd agg.min_duration d,
            max_duration := max agg.max_duration d }
      else agg
    | none => agg
  { agg with scenario_results := dset agg.scenario_results r.scenario_name (summaryOf r) }

/-- `ResultAggregator._calculate_basic_stats`. -/
def calculate_basic_stats (worker_results : List WorkerResultRec)
    (agg : AggregatedResults) : AggregatedResults :=
  let agg := { agg with total_scenarios := worker_results.length }
  let agg := worker_results.foldl basicStep agg
  if agg.total_scenarios > 0 then
    { agg with
        success_rate := (agg.successful_scenarios : ℚ) / agg.total_scenarios,
        average_duration := agg.total_duration / agg.total_scenarios }
  else agg

/-- `ResultAggregator` state: the accumulated result list and the single
mutable `AggregatedResults` instance created at construction. -/
structure ResultAggregator where
  worker_results : List WorkerResultRec := []
  aggregated_results : AggregatedResults := {}

/-- `ResultAggregator.add_result`. -/
def add_result (ra : ResultAggregator) (r : WorkerResultRec) : ResultAggregator :=
  { ra with worker_results := ra.worker_results ++ [r] }

/-- The six in-place stages of `ResultAggregator.aggregate` applied to the
current `aggregated_results` (`_save_to_master_session` only reads the
aggregate and performs file I/O, so it is not modelled). -/
def aggregateAgg (worker_results : List WorkerResultRec)
    (agg0 : AggregatedResults) : AggregatedResults :=
  let agg := calculate_basic_stats worker_results agg0
  let ae := analyze_errors worker_results
  let agg := { agg with common_errors := ae.1, error_patterns := ae.2 }
  let af := analyze_findings worker_results
  let agg := { agg with common_findings := af.1, root_causes := af.2 }
  let ap := analyze_performance worker_results
  let agg := { agg with performance_metrics := ap.1, test_data_usage := ap.2 }
  let agg := { agg with timeline := build_timeline worker_results }
  { agg with recommendations := generate_recommendations agg }

/-- `ResultAggregator.aggregate`: early return on an empty result list, then
the staged in-place update.  The returned `AggregatedResults` is the
`aggregated_results` field of the new state. -/
def aggregate (ra : ResultAggregator) : ResultAggregator :=
  if ra.worker_results.isEmpty then ra
  else
    { ra with
        aggregated_results := aggregateAgg ra.worker_results ra.aggregated_results }

def succCount (l : List WorkerResultRec) : Nat :=
  (l.filter (fun r => r.success)).length

def failCount (l : List WorkerResultRec) : Nat :=
  (l.filter (fun r => !r.success)).length

def durList : List WorkerResultRec → List ℚ
  | [] => []
  | r :: t =>
    (match r.duration with
      | some d => if d ≠ 0 then [d] else []
      | none => []) ++ durList t

def qsum (l : List ℚ) : ℚ := l.foldl (· + ·) 0

def dsetAll {V : Type} (d : List (String × V)) (ps : List (String × V)) :
    List (String × V) :=
  ps.foldl (fun d p => dset d p.1 p.2) d

def optOr {V : Type} (a b : Option V) : Option V :=
  match a with
  | some v => some v
  | none => b

def lastVal {V : Type} : List (String × V) → String → Option V
  | [], _ => none
  | p :: t, k => optOr (lastVal t k) (if p.1 = k then some p.2 else none)

def c1Result : WorkerResultRec :=
  { worker_id := "worker_0", scenario_name := "recruiter_job_creation",
    success := true, duration := some 2 }

/-! ## `parallel_debugger.py`: the scheduling loop -/

/-- The orchestrator state over one `_execute_scenarios` run: the scenario
queue, the loop-local `active_workers` map, the instance dicts
`self.workers` (worker_id → process handle, modelled as `Unit`) and
`self.worker_scenarios` (never cleaned), and the shared port configuration.
`started_ids` is a ghost trace of the worker ids issued by `_start_worker`,
in order. -/
structure OrchState where
  scenario_queue : List TestScenario
  active_workers : List (String × TestScenario)
  workers : List (String × Unit)
  worker_scenarios : List (String × TestScenario)
  config : ParallelDebugConfig
  started_ids : List String
deriving Repr

def mkOrchState (scenarios : List TestScenario) (rc : ResourceConfig) : OrchState :=
  { scenario_queue := scenarios, active_workers := [], workers := [],
    worker_scenarios := [], config := mkParallelDebugConfig rc,
    started_ids := [] }

/-- `ParallelDebugger._start_worker`: the id is derived from the CURRENT
size of `self.workers`; on any failure (modelled: port allocation) the
`except` branch releases the id's ports and returns `None`; on success the
worker is tracked.  (Process construction/start is not modelled as failing;
the environment build has no effect on tracking.) -/
def start_worker (st : OrchState) (scenario : TestScenario) :
    Option String × OrchState :=
  let worker_id := "worker_" ++ toString st.workers.length
  let r := allocate_ports st.config worker_id 2
  match r.1 with
  | .error _ =>
    (none, { st with config := release_ports r.2 worker_id })
  | .ok _ =>
    (some worker_id,
      { st with
          config := r.2,
          workers := dset st.workers worker_id (),
          worker_scenarios := dset st.worker_scenarios worker_id scenario,
          started_ids := st.started_ids ++ [worker_id] })

/-- One transition of the `_execute_scenarios` loop: either the inner
while-loop body starts the next queued scenario (guarded by capacity), or a
tracked active worker whose process has exited (the exit instant is chosen
by the environment) is cleaned up — removed from both maps with its ports
released. -/
inductive SchedOp
  | startNext
  | completeWorker (wid : String)

def schedStep (st : OrchState) : SchedOp → OrchState
  | .startNext =>
    match st.scenario_queue with
    | [] => st
    | scenario :: rest =>
      if st.active_workers.length < st.config.resource_config.max_workers then
        let st1 := { st with scenario_queue := rest }
        let r := start_worker st1 scenario
        match r.1 with
        | some wid =>
          { r.2 with active_workers := dset r.2.active_workers wid scenario }
        | none => r.2
      else st
  | .completeWorker wid =>
    if dmem wid st.workers && dmem wid st.active_workers then
      { st with
          active_workers := derase st.active_workers wid,
          workers := derase st.workers wid,
          config := release_ports st.config wid }
    else st

def runSched (st : OrchState) (ops : List SchedOp) : OrchState :=
  ops.foldl schedStep st

def c3ScenarioA : TestScenario :=
  { name := "recruiter_job_creation", test_type := .UI_FLOW,
    test_function := "test_job_creation_flow" }

def c3ScenarioB : TestScenario :=
  { name := "candidate_job_search", test_type := .UI_FLOW,
    test_function := "test_job_search_flow" }

/-! ## Theorems -/

/-! ## Dictionary lemmas -/

theorem dlookup_mem {V : Type} {d : List (String × V)} {k : String} {v : V}
    (h : dlookup d k = some v) : (k, v) ∈ d := by
  induction d with
  | nil => simp [dlookup] at h
  | cons e t ih =>
    obtain ⟨k', v'⟩ := e
    simp only [dlookup] at h
    split at h
    · rename_i hk
      cases h
      subst hk
      exact List.mem_cons_self _ _
    · exact List.mem_cons_of_mem _ (ih h)

theorem dset_of_not_mem {V : Type} {d : List (String × V)} {k : String} (v : V)
    (h : dmem k d = false) : dset d k v = d ++ [(k, v)] := by
  induction d with
  | nil => simp [dset]
  | cons e t ih =>
    obtain ⟨k', v'⟩ := e
    simp only [dmem, dlookup] at h
    by_cases hk : k' = k
    · simp [hk, Option.isSome] at h
    · simp only [dset, if_neg hk, List.cons_append, List.cons.injEq, true_and]
      apply ih
      simpa [dmem, hk] using h

theorem derase_sublist {V : Type} (d : List (String × V)) (k : String) :
    List.Sublist (derase d k) d := by
  induction d with
  | nil => simp [derase]
  | cons e t ih =>
    obtain ⟨k', v'⟩ := e
    simp only [derase]
    split
    · exact (List.Sublist.refl t).cons _
    · exact ih.cons₂ _

theorem portsDisjoint_symm : Symmetric portsDisjoint := by
  intro a b h p hpb hpa
  exact h p hpa hpb

theorem allocPortsLoop_le (count : Nat) :
    ∀ nextPort bound, nextPort ≤ (allocPortsLoop nextPort bound count).2 := by
  induction count with
  | zero => intro nextPort bound; simp [allocPortsLoop]
  | succ n ih =>
    intro nextPort bound
    simp only [allocPortsLoop]
    split
    · simp
    · have h := ih (nextPort + 1) bound
      simpa using Nat.le_of_succ_le h

theorem allocPortsLoop_mem (count : Nat) :
    ∀ nextPort bound ports,
      (allocPortsLoop nextPort bound count).1 = some ports →
      ∀ p ∈ ports, nextPort ≤ p ∧ p < (allocPortsLoop nextPort bound count).2 := by
  induction count with
  | zero =>
    intro nextPort bound ports h p hp
    simp only [allocPortsLoop, Option.some.injEq] at h
    subst h
    simp at hp
  | succ n ih =>
    intro nextPort bound ports h p hp
    simp only [allocPortsLoop] at h ⊢
    split at h
    · simp at h
    · rename_i hbound
      simp only [if_neg hbound]
      simp only [Option.map_eq_some'] at h
      obtain ⟨ports', hres, hcons⟩ := h
      subst hcons
      rcases List.mem_cons.mp hp with rfl | hp'
      · refine ⟨Nat.le_refl _, ?_⟩
        have h4 := allocPortsLoop_le n (p + 1) bound
        omega
      · have h5 := ih (nextPort + 1) bound ports' hres p hp'
        omega

theorem allocPortsLoop_exhaust (count : Nat) :
    ∀ nextPort bound, bound - nextPort < count → count ≠ 0 →
      (allocPortsLoop nextPort bound count).1 = none := by
  induction count with
  | zero => intro _ _ _ h; exact absurd rfl h
  | succ n ih =>
    intro nextPort bound hrem _
    simp only [allocPortsLoop]
    by_cases hb : nextPort ≥ bound
    · simp [hb]
    · have hn : n ≠ 0 := by omega
      have hrem' : bound - (nextPort + 1) < n := by omega
      have h := ih (nextPort + 1) bound hrem' hn
      simp [hb, h]

theorem configInv_alloc (cfg : ParallelDebugConfig) (wid : String) (count : Nat)
    (h : ConfigInv cfg) : ConfigInv (allocate_ports cfg wid count).2 := by
  obtain ⟨hb, hd⟩ := h
  unfold allocate_ports
  by_cases hm : dmem wid cfg.allocated_ports
  · simp only [hm, if_true]
    exact ⟨hb, hd⟩
  · simp only [hm, Bool.false_eq_true, if_false]
    have hle : cfg.next_port ≤ (allocPortsLoop cfg.next_port
        (cfg.resource_config.base_port + cfg.resource_config.port_range) count).2 :=
      allocPortsLoop_le count _ _
    rcases hres : (allocPortsLoop cfg.next_port
        (cfg.resource_config.base_port + cfg.resource_config.port_range) count).1 with
      _ | ports
    · simp only [hres]
      refine ⟨?_, hd⟩
      intro e he p hp
      exact Nat.lt_of_lt_of_le (hb e he p hp) hle
    · simp only [hres]
      have hmem := allocPortsLoop_mem count cfg.next_port
        (cfg.resource_config.base_port + cfg.resource_config.port_range) ports hres
      have hset := dset_of_not_mem (d := cfg.allocated_ports) (k := wid) ports
        (by simpa using hm)
      constructor
      · intro e he p hp
        rw [hset] at he
        rcases List.mem_append.mp he with he | he
        · exact Nat.lt_of_lt_of_le (hb e he p hp) hle
        · simp only [List.mem_singleton] at he
          subst he
          exact (hmem p hp).2
      · rw [hset]
        apply List.pairwise_append.mpr
        refine ⟨hd, List.pairwise_singleton _ _, ?_⟩
        intro a ha b hb'
        simp only [List.mem_singleton] at hb'
        subst hb'
        intro p hpa hpb
        have h1 := hb a ha p hpa
        have h2 := (hmem p hpb).1
        omega

theorem configInv_release (cfg : ParallelDebugConfig) (wid : String)
    (h : ConfigInv cfg) : ConfigInv (release_ports cfg wid) := by
  obtain ⟨hb, hd⟩ := h
  unfold release_ports
  split
  · constructor
    · intro e he p hp
      exact hb e ((derase_sublist _ _).mem he) p hp
    · exact hd.sublist (derase_sublist _ _)
  · exact ⟨hb, hd⟩

theorem configInv_runConfigOps (cfg : ParallelDebugConfig) (ops : List ConfigOp)
    (h : ConfigInv cfg) : ConfigInv (runConfigOps cfg ops) := by
  induction ops generalizing cfg with
  | nil => exact h
  | cons op t ih =>
    cases op with
    | alloc wid count => exact ih _ (configInv_alloc cfg wid count h)
    | release wid => exact ih _ (configInv_release cfg wid h)

theorem configInv_mk (rc : ResourceConfig) : ConfigInv (mkParallelDebugConfig rc) := by
  constructor
  · intro e he
    simp [mkParallelDebugConfig] at he
  · simp [mkParallelDebugConfig]

/-- C2: after any call sequence, simultaneously held allocations are
port-disjoint, and a second `allocate_ports` for a holding worker raises
`ValueError` and leaves the configuration untouched. -/
theorem allocated_ports_exclusive :
    (∀ (rc : ResourceConfig) (ops : List ConfigOp) (w1 w2 : String)
        (ps1 ps2 : List Nat),
      dlookup (runConfigOps (mkParallelDebugConfig rc) ops).allocated_ports w1
        = some ps1 →
      dlookup (runConfigOps (mkParallelDebugConfig rc) ops).allocated_ports w2
        = some ps2 →
      w1 ≠ w2 → ∀ p, p ∈ ps1 → p ∉ ps2) ∧
    (∀ (cfg : ParallelDebugConfig) (wid : String) (count : Nat),
      dmem wid cfg.allocated_ports = true →
      allocate_ports cfg wid count =
        (.error (.valueError ("Ports already allocated for worker " ++ wid)), cfg)) := by
  constructor
  · intro rc ops w1 w2 ps1 ps2 h1 h2 hne p hp1
    have hinv := configInv_runConfigOps (mkParallelDebugConfig rc) ops (configInv_mk rc)
    have hm1 := dlookup_mem h1
    have hm2 := dlookup_mem h2
    have hdiff : (w1, ps1) ≠ (w2, ps2) := by
      intro hEq
      exact hne (congrArg Prod.fst hEq)
    exact hinv.2.forall portsDisjoint_symm hm1 hm2 hdiff p hp1
  · intro cfg wid count hm
    unfold allocate_ports
    simp [hm]

/-- Witness for C2 at a concrete run: two allocations on a fresh default
configuration hold disjoint ports, and re-allocating raises the error. -/
theorem allocated_ports_exclusive_witness :
    ((3100 : Nat) ∉ [3102, 3103]) ∧
      (allocate_ports
          { resource_config := {}, allocated_ports := [("worker_0", [3100, 3101])],
            next_port := 3102 } "worker_0" 2 =
        (.error (.valueError "Ports already allocated for worker worker_0"),
          { resource_config := {}, allocated_ports := [("worker_0", [3100, 3101])],
            next_port := 3102 })) := by
  constructor
  · exact allocated_ports_exclusive.1 {} [.alloc "worker_0" 2, .alloc "worker_1" 2]
      "worker_0" "worker_1" [3100, 3101] [3102, 3103] (by decide) (by decide)
      (by decide) 3100 (by decide)
  · exact allocated_ports_exclusive.2 _ "worker_0" 2 (by decide)

/-- C5: when fewer than `count` ports remain in
`[base_port, base_port + port_range)` (measured from the cursor), a fresh
allocation raises `RuntimeError("Port range exhausted")` and leaves the
allocation table exactly as it was. -/
theorem allocate_ports_exhaustion (cfg : ParallelDebugConfig) (wid : String)
    (count : Nat)
    (hfresh : dmem wid cfg.allocated_ports = false)
    (hrem : (cfg.resource_config.base_port + cfg.resource_config.port_range)
        - cfg.next_port < count) :
    (allocate_ports cfg wid count).1 =
        .error (.runtimeError "Port range exhausted") ∧
      (allocate_ports cfg wid count).2.allocated_ports = cfg.allocated_ports := by
  have hc : count ≠ 0 := by omega
  have hnp := allocPortsLoop_exhaust count cfg.next_port
    (cfg.resource_config.base_port + cfg.resource_config.port_range) hrem hc
  unfold allocate_ports
  simp [hfresh, hnp]

/-- Witness for C5: a configuration with one port left cannot satisfy a
2-port request and its table survives unchanged. -/
theorem allocate_ports_exhaustion_witness :
    (allocate_ports
        { resource_config := {}, allocated_ports := [("worker_0", [3100, 3101])],
          next_port := 3199 } "worker_1" 2).1 =
        .error (.runtimeError "Port range exhausted") ∧
      (allocate_ports
        { resource_config := {}, allocated_ports := [("worker_0", [3100, 3101])],
          next_port := 3199 } "worker_1" 2).2.allocated_ports =
        [("worker_0", [3100, 3101])] := by
  exact allocate_ports_exhaustion _ "worker_1" 2 (by decide) (by decide)

/-! ## Worker lemmas and claims C4, C6, C10 -/

theorem execute_timeout (w : World) (sc : TestScenario) (s : String)
    (hext : strEndsWith s ".py" = true ∨ strEndsWith s ".js" = true)
    (hrun : w.childRun s = .timeoutExpired) :
    execute_test_script w sc s =
      { outcome := .error (.timeoutError
          ("Test exceeded timeout of " ++ toString sc.timeout ++ "s")),
        logs := [], killed := true } := by
  unfold execute_test_script
  rcases hext with h | h <;> simp [h, hrun]

theorem execute_exit_nonzero (w : World) (sc : TestScenario) (s : String)
    (code : Int) (out err : String)
    (hext : strEndsWith s ".py" = true ∨ strEndsWith s ".js" = true)
    (hrun : w.childRun s = .exited code out err) (hc : ¬ code = 0) :
    (execute_test_script w sc s).outcome =
        .error (.runtimeError
          ("Failed to execute test script: Test script failed with code " ++
            toString code)) ∧
      (execute_test_script w sc s).killed = false := by
  unfold execute_test_script
  rcases hext with h | h <;> simp [h, hrun, hc]

theorem dispatch_executes (w : World) (sc : TestScenario) (s : String)
    (hs : scriptFor w sc = some s) (e : PyExc)
    (hx : (execute_test_script w sc s).outcome = .error e) :
    (dispatchScenario w sc {}).outcome = .error e ∧
      (dispatchScenario w sc {}).killed = (execute_test_script w sc s).killed := by
  cases htt : sc.test_type <;> simp only [scriptFor, htt] at hs
  case UI_FLOW =>
    split at hs
    · rename_i hcond
      simp [dispatchScenario, htt, run_ui_test, hcond, hs, hx]
    · rename_i hcond
      rw [not_not] at hcond
      simp only [Option.some.injEq] at hs
      subst hs
      have h1 : strEndsWith sc.test_function ".py" = true ∨
          strEndsWith sc.test_function ".js" = true := by
        simpa using hcond
      rcases h1 with h1 | h1 <;>
        simp [dispatchScenario, htt, run_ui_test, h1, hx]
  case API_TEST =>
    simp [dispatchScenario, htt, run_api_test, runOptionalScriptTest, hs, hx]
  case INTEGRATION =>
    simp [dispatchScenario, htt, run_integration_test, runOptionalScriptTest, hs, hx]
  case PERFORMANCE =>
    simp [dispatchScenario, htt, run_performance_test, runOptionalScriptTest, hs, hx]
  case DATABASE => simp at hs
  case SECURITY => simp at hs

theorem runWorker_of_dispatchError (w : World) (wid : String) (sc : TestScenario)
    (e : PyExc) (hD : (dispatchScenario w sc {}).outcome = .error e) :
    (runWorker w wid sc).success = false ∧
      (runWorker w wid sc).error = some e.str ∧
      (runWorker w wid sc).killed = (dispatchScenario w sc {}).killed := by
  simp [runWorker, hD]

/-- C10: a scenario whose `test_type` is the declared enum member `SECURITY`
reaches no execution strategy: the dispatch's final `else` raises
`ValueError`, and the worker's result records `success = false` with an
error message naming the unknown test type (and no strategy side effects:
no logs, no checkpoints). -/
theorem security_scenario_always_fails (w : World) (wid : String)
    (sc : TestScenario) (h : sc.test_type = TestType.SECURITY) :
    (runWorker w wid sc).success = false ∧
      (runWorker w wid sc).error = some "Unknown test type: TestType.SECURITY" ∧
      (runWorker w wid sc).logs = [] ∧
      (runWorker w wid sc).checkpoints = [] := by
  simp [runWorker, dispatchScenario, h, PyExc.str, TestType.pyStr]

/-- Witness for C10 at a concrete security scenario. -/
theorem security_scenario_always_fails_witness :
    (runWorker noResolveWorld "worker_0"
        { name := "security_scan", test_type := .SECURITY,
          test_function := "test_security_scan" }).success = false ∧
      (runWorker noResolveWorld "worker_0"
        { name := "security_scan", test_type := .SECURITY,
          test_function := "test_security_scan" }).error =
        some "Unknown test type: TestType.SECURITY" ∧
      (runWorker noResolveWorld "worker_0"
        { name := "security_scan", test_type := .SECURITY,
          test_function := "test_security_scan" }).logs = [] ∧
      (runWorker noResolveWorld "worker_0"
        { name := "security_scan", test_type := .SECURITY,
          test_function := "test_security_scan" }).checkpoints = [] :=
  security_scenario_always_fails noResolveWorld "worker_0" _ rfl

/-- C4 counterexample: an `API_TEST` scenario whose `test_function` resolves
to no script does NOT fail with a not-found error — the strategy silently
skips execution and the worker completes with `success = true` and no error
(the claim asserts failure for all script-launching test types). -/
theorem api_unresolved_succeeds_cex :
    (runWorker noResolveWorld "worker_0"
        { name := "api_endpoints_validation", test_type := .API_TEST,
          test_function := "missing_api_test" }).success = true ∧
      (runWorker noResolveWorld "worker_0"
        { name := "api_endpoints_validation", test_type := .API_TEST,
          test_function := "missing_api_test" }).error = none := by
  constructor <;> rfl

/-- C4 amended: only the UI-flow strategy raises
`FileNotFoundError("Test script not found: ...")` for an unresolvable
`test_function`; the API, integration and performance strategies silently
skip the launch and the worker completes successfully. -/
theorem unresolved_script_outcome (w : World) (wid : String) (sc : TestScenario)
    (hres : w.resolve sc.test_function = none)
    (hpy : strEndsWith sc.test_function ".py" = false)
    (hjs : strEndsWith sc.test_function ".js" = false) :
    (sc.test_type = .UI_FLOW →
      (runWorker w wid sc).success = false ∧
        (runWorker w wid sc).error =
          some ("Test script not found: " ++ sc.test_function)) ∧
    (sc.test_type = .API_TEST ∨ sc.test_type = .INTEGRATION ∨
        sc.test_type = .PERFORMANCE →
      (runWorker w wid sc).success = true ∧
        (runWorker w wid sc).error = none) := by
  constructor
  · intro ht
    simp [runWorker, dispatchScenario, ht, run_ui_test, hres, hpy, hjs, PyExc.str]
  · intro ht
    rcases ht with ht | ht | ht <;>
      simp [runWorker, dispatchScenario, ht, run_api_test, run_integration_test,
        run_performance_test, runOptionalScriptTest, hres]

/-- Witness for the amended C4: with no script resolvable, a UI scenario
fails with the not-found message while an API scenario succeeds. -/
theorem unresolved_script_outcome_witness :
    ((runWorker noResolveWorld "worker_0"
        { name := "recruiter_job_creation", test_type := .UI_FLOW,
          test_function := "missing_flow" }).error =
      some "Test script not found: missing_flow") ∧
      ((runWorker noResolveWorld "worker_0"
        { name := "api_endpoints_validation", test_type := .API_TEST,
          test_function := "missing_api" }).success = true) := by
  constructor
  · exact (unresolved_script_outcome noResolveWorld "worker_0" _ rfl (by decide)
      (by decide)).1 rfl |>.2
  · exact (unresolved_script_outcome noResolveWorld "worker_0" _ rfl (by decide)
      (by decide)).2 (Or.inl rfl) |>.1

/-- C6: when the strategy's script is launched, a child exceeding
`scenario.timeout` is killed and `TimeoutError("Test exceeded timeout of
{t}s")` propagates, so the final result has `success = false` with the
timeout-naming message; a child exiting non-zero makes execution fail with a
`RuntimeError` whose message carries the exit code. -/
theorem child_timeout_and_exit_code (w : World) (wid : String)
    (sc : TestScenario) (s : String) (hs : scriptFor w sc = some s)
    (hext : strEndsWith s ".py" = true ∨ strEndsWith s ".js" = true) :
    (w.childRun s = .timeoutExpired →
      (dispatchScenario w sc {}).outcome =
          .error (.timeoutError
            ("Test exceeded timeout of " ++ toString sc.timeout ++ "s")) ∧
        (runWorker w wid sc).success = false ∧
        (runWorker w wid sc).error =
          some ("Test exceeded timeout of " ++ toString sc.timeout ++ "s") ∧
        (runWorker w wid sc).killed = true) ∧
    (∀ (code : Int) (out err : String),
      w.childRun s = .exited code out err → ¬ code = 0 →
      (dispatchScenario w sc {}).outcome =
          .error (.runtimeError
            ("Failed to execute test script: Test script failed with code " ++
              toString code)) ∧
        (runWorker w wid sc).success = false ∧
        (runWorker w wid sc).error =
          some ("Failed to execute test script: Test script failed with code " ++
            toString code)) := by
  constructor
  · intro hrun
    have hex := execute_timeout w sc s hext hrun
    have hx : (execute_test_script w sc s).outcome =
        .error (.timeoutError
          ("Test exceeded timeout of " ++ toString sc.timeout ++ "s")) := by
      rw [hex]
    have hk : (execute_test_script w sc s).killed = true := by rw [hex]
    obtain ⟨hD, hDk⟩ := dispatch_executes w sc s hs _ hx
    obtain ⟨h1, h2, h3⟩ := runWorker_of_dispatchError w wid sc _ hD
    exact ⟨hD, h1, h2, by rw [h3, hDk, hk]⟩
  · intro code out err hrun hc
    obtain ⟨hx, -⟩ := execute_exit_nonzero w sc s code out err hext hrun hc
    obtain ⟨hD, -⟩ := dispatch_executes w sc s hs _ hx
    obtain ⟨h1, h2, -⟩ := runWorker_of_dispatchError w wid sc _ hD
    exact ⟨hD, h1, h2⟩

/-- Witness for C6: a UI scenario whose child times out yields a failed
result with the timeout message and the kill flag; one whose child exits
with code 2 yields the wrapped `RuntimeError` message carrying the code. -/
theorem child_timeout_and_exit_code_witness :
    ((runWorker timeoutWorld "worker_0"
        { name := "recruiter_job_creation", test_type := .UI_FLOW,
          test_function := "test_flow", timeout := 120 }).error =
      some "Test exceeded timeout of 120s") ∧
      ((runWorker timeoutWorld "worker_0"
        { name := "recruiter_job_creation", test_type := .UI_FLOW,
          test_function := "test_flow", timeout := 120 }).killed = true) ∧
      ((runWorker exitTwoWorld "worker_0"
        { name := "recruiter_job_creation", test_type := .UI_FLOW,
          test_function := "test_flow", timeout := 120 }).error =
      some "Failed to execute test script: Test script failed with code 2") := by
  refine ⟨?_, ?_, ?_⟩
  · exact ((child_timeout_and_exit_code timeoutWorld "worker_0" _ "test_flow.py"
      (by decide) (Or.inl (by decide))).1 rfl).2.2.1
  · exact ((child_timeout_and_exit_code timeoutWorld "worker_0" _ "test_flow.py"
      (by decide) (Or.inl (by decide))).1 rfl).2.2.2
  · exact ((child_timeout_and_exit_code exitTwoWorld "worker_0" _ "test_flow.py"
      (by decide) (Or.inl (by decide))).2 2 "boom" "trace" rfl
      (by decide)).2.2

/-- C9: failed workers' error strings run through every category regex
case-insensitively: "Timeout exceeded" and "Timeout waiting for element"
both land in the `timeout` category, "401 Unauthorized" lands in
`authentication`, and a message may land in several categories at once
("Database connection failed" is classified under both `connection` and
`database`).  Case-insensitivity is exercised by the capitalized subjects
matching the lowercase patterns. -/
theorem error_patterns_classification :
    dlookup (analyze_errors [c9TimeoutExceeded, c9TimeoutWaiting, c9Unauthorized,
        c9DbConnection]).2 "timeout" =
      some [.fromError "auth_session_timeout" "Timeout exceeded",
            .fromError "candidate_job_search" "Timeout waiting for element"] ∧
    dlookup (analyze_errors [c9TimeoutExceeded, c9TimeoutWaiting, c9Unauthorized,
        c9DbConnection]).2 "authentication" =
      some [.fromError "auth_token_validation" "401 Unauthorized"] ∧
    dlookup (analyze_errors [c9TimeoutExceeded, c9TimeoutWaiting, c9Unauthorized,
        c9DbConnection]).2 "connection" =
      some [.fromError "database_queries" "Database connection failed"] ∧
    dlookup (analyze_errors [c9TimeoutExceeded, c9TimeoutWaiting, c9Unauthorized,
        c9DbConnection]).2 "database" =
      some [.fromError "database_queries" "Database connection failed"] := by
  decide

/-! ## Claim C7: finding similarity clustering -/

theorem two_findings_cluster_aux (f1 f2 : TypedFinding) :
    group_similar_findings [f1, f2] =
      (if are_similar f1.description f2.description then
        [{ description := f1.description, count := 2,
           scenarios := [f1.scenario, f2.scenario],
           evidence := [f1, f2].filterMap truthyEvidence }]
      else []) := by
  by_cases h : are_similar f1.description f2.description = true
  · simp only [group_similar_findings, List.enum, groupRec, innerScan, h]
    rcases he1 : truthyEvidence f1 with _ | e1 <;>
      rcases he2 : truthyEvidence f2 with _ | e2 <;>
        simp [groupRec, innerScan, h, he1, he2]
  · simp only [Bool.not_eq_true] at h
    simp [group_similar_findings, List.enum, groupRec, innerScan, h]

theorem case_insensitive_similar_aux (d1 d2 : String)
    (h : stripStr (lowerStr d1) = stripStr (lowerStr d2)) :
    are_similar d1 d2 = true := by
  simp [are_similar, h]

/-- C7 counterexample: two findings of the same type whose descriptions are
neither equal nor substrings and whose token-overlap ratio is exactly 70% —
so the claim's "at least 70%" rule says they cluster — are NOT clustered:
`_are_similar` requires the ratio to exceed 0.7 strictly, and the grouping
emits no cluster for them. -/
theorem similarity_at_threshold_not_clustered_cex :
    ((((splitWs cexDescA).eraseDups.filter
        (fun w => (splitWs cexDescB).eraseDups.contains w)).length : ℚ) /
      (min (splitWs cexDescA).eraseDups.length (splitWs cexDescB).eraseDups.length
          : Nat) ≥ 7/10) ∧
    are_similar cexDescA cexDescB = false ∧
    group_similar_findings
      [{ scenario := "recruiter_job_creation", description := cexDescA },
       { scenario := "candidate_job_search", description := cexDescB }] = [] := by
  have h1 : ((splitWs cexDescA).eraseDups.filter
      (fun w => (splitWs cexDescB).eraseDups.contains w)).length = 7 := by decide
  have h2 : (splitWs cexDescA).eraseDups.length = 10 := by decide
  have h3 : (splitWs cexDescB).eraseDups.length = 10 := by decide
  have hsim : are_similar cexDescA cexDescB = false := by
    rw [are_similar]
    have e1 : stripStr (lowerStr cexDescA) = cexDescA := by decide
    have e2 : stripStr (lowerStr cexDescB) = cexDescB := by decide
    rw [e1, e2]
    have hne : (cexDescA = cexDescB) = False := by decide
    have hc1 : strContains cexDescB cexDescA = false := by decide
    have hc2 : strContains cexDescA cexDescB = false := by decide
    have h4 : (splitWs cexDescA).eraseDups.isEmpty = false := by decide
    have h5 : (splitWs cexDescB).eraseDups.isEmpty = false := by decide
    simp only [hne, if_false, hc1, hc2, Bool.or_self, Bool.false_eq_true, h1, h2, h3,
      h4, h5]
    norm_num
  refine ⟨?_, hsim, ?_⟩
  · rw [h1, h2, h3]
    norm_num
  · simp [group_similar_findings, List.enum, groupRec, innerScan, hsim]

/-- C7 amended: within a finding type holding exactly two findings, the pair
is clustered (into one group of count 2 listing both scenarios) exactly when
the similarity rule holds — equality after lowercasing and trimming,
substring containment, or token-overlap ratio STRICTLY greater than 70% —
and two descriptions differing only in letter case are always similar (the
lowercased forms coincide), so they always cluster with count 2.  With more
than two findings the grouping is greedy from the first unseen finding, so
co-clustered members are each similar to the group's seed rather than
pairwise. -/
theorem similar_pairs_cluster :
    (∀ f1 f2 : TypedFinding,
      group_similar_findings [f1, f2] =
        (if are_similar f1.description f2.description then
          [{ description := f1.description, count := 2,
             scenarios := [f1.scenario, f2.scenario],
             evidence := [f1, f2].filterMap truthyEvidence }]
        else [])) ∧
    (∀ d1 d2 : String, stripStr (lowerStr d1) = stripStr (lowerStr d2) →
      are_similar d1 d2 = true) :=
  ⟨two_findings_cluster_aux, case_insensitive_similar_aux⟩

/-- Witness for C7's amended claim at the spec's example pair (case
difference only): one cluster of count 2. -/
theorem similar_pairs_cluster_witness :
    group_similar_findings
        [{ scenario := "api_endpoints_validation",
           description := "API returns 400 for bad department" },
         { scenario := "candidate_job_search",
           description := "api returns 400 for bad department" }] =
      [{ description := "API returns 400 for bad department", count := 2,
         scenarios := ["api_endpoints_validation", "candidate_job_search"],
         evidence := [] }] := by
  have h1 := similar_pairs_cluster.1
    { scenario := "api_endpoints_validation",
      description := "API returns 400 for bad department" }
    { scenario := "candidate_job_search",
      description := "api returns 400 for bad department" }
  have h2 := similar_pairs_cluster.2 "API returns 400 for bad department"
    "api returns 400 for bad department" (by decide)
  rw [h1]
  simp [h2, truthyEvidence]

theorem foldl_add_init (l : List ℚ) : ∀ a : ℚ, l.foldl (· + ·) a = a + qsum l := by
  induction l with
  | nil => intro a; simp [qsum]
  | cons x t ih =>
    intro a
    simp only [qsum, List.foldl_cons]
    rw [ih (a + x), ih (0 + x)]
    ring

theorem qsum_cons (x : ℚ) (l : List ℚ) : qsum (x :: l) = x + qsum l := by
  have h := foldl_add_init l (0 + x)
  simp only [qsum, List.foldl_cons] at h ⊢
  rw [h]
  ring

theorem foldl_basicStep_spec (results : List WorkerResultRec) :
    ∀ agg : AggregatedResults,
      results.foldl basicStep agg =
        { agg with
            successful_scenarios := agg.successful_scenarios + succCount results,
            failed_scenarios := agg.failed_scenarios + failCount results,
            total_duration := agg.total_duration + qsum (durList results),
            min_duration := (durList results).foldl minUpd agg.min_duration,
            max_duration := (durList results).foldl max agg.max_duration,
            scenario_results := dsetAll agg.scenario_results
              (results.map (fun r => (r.scenario_name, summaryOf r))) } := by
  induction results with
  | nil =>
    intro agg
    simp [succCount, failCount, durList, qsum, dsetAll]
  | cons r t ih =>
    intro agg
    rw [List.foldl_cons, ih]
    rcases hd : r.duration with _ | d
    · by_cases hs : r.success = true
      · simp [basicStep, hd, hs, succCount, failCount, durList, List.filter_cons,
          dsetAll]
        omega
      · simp only [Bool.not_eq_true] at hs
        simp [basicStep, hd, hs, succCount, failCount, durList, List.filter_cons,
          dsetAll]
        omega
    · by_cases hz : d = 0
      · subst hz
        by_cases hs : r.success = true
        · simp [basicStep, hd, hs, succCount, failCount, durList, List.filter_cons,
            dsetAll]
          omega
        · simp only [Bool.not_eq_true] at hs
          simp [basicStep, hd, hs, succCount, failCount, durList, List.filter_cons,
            dsetAll]
          omega
      · by_cases hs : r.success = true
        · simp [basicStep, hd, hs, hz, succCount, failCount, durList,
            List.filter_cons, dsetAll, qsum_cons]
          repeat' apply And.intro
          · omega
          · ring
        · simp only [Bool.not_eq_true] at hs
          simp [basicStep, hd, hs, hz, succCount, failCount, durList,
            List.filter_cons, dsetAll, qsum_cons]
          repeat' apply And.intro
          · omega
          · ring

theorem foldl_min_le_init (l : List ℚ) : ∀ a : ℚ, l.foldl min a ≤ a := by
  induction l with
  | nil => intro a; simp
  | cons x t ih =>
    intro a
    calc List.foldl min (min a x) t ≤ min a x := ih _
      _ ≤ a := min_le_left _ _

theorem foldl_min_le_mem (l : List ℚ) : ∀ (a x : ℚ), x ∈ l → l.foldl min a ≤ x := by
  induction l with
  | nil => intro a x hx; simp at hx
  | cons y t ih =>
    intro a x hx
    rcases List.mem_cons.mp hx with rfl | hx
    · calc List.foldl min (min a x) t ≤ min a x := foldl_min_le_init _ _
        _ ≤ x := min_le_right _ _
    · exact ih _ x hx

theorem foldl_min_of_le (l : List ℚ) : ∀ a : ℚ, (∀ x ∈ l, a ≤ x) →
    l.foldl min a = a := by
  induction l with
  | nil => intro a _; rfl
  | cons y t ih =>
    intro a h
    have hy : a ≤ y := h y (List.mem_cons_self _ _)
    simp only [List.foldl_cons, min_eq_left hy]
    exact ih a (fun x hx => h x (List.mem_cons_of_mem _ hx))

theorem foldl_max_init_le (l : List ℚ) : ∀ a : ℚ, a ≤ l.foldl max a := by
  induction l with
  | nil => intro a; simp
  | cons x t ih =>
    intro a
    calc a ≤ max a x := le_max_left _ _
      _ ≤ List.foldl max (max a x) t := ih _

theorem foldl_max_mem_le (l : List ℚ) : ∀ (a x : ℚ), x ∈ l → x ≤ l.foldl max a := by
  induction l with
  | nil => intro a x hx; simp at hx
  | cons y t ih =>
    intro a x hx
    rcases List.mem_cons.mp hx with rfl | hx
    · calc x ≤ max a x := le_max_right _ _
        _ ≤ List.foldl max (max a x) t := foldl_max_init_le _ _
    · exact ih _ x hx

theorem foldl_max_of_le (l : List ℚ) : ∀ a : ℚ, (∀ x ∈ l, x ≤ a) →
    l.foldl max a = a := by
  induction l with
  | nil => intro a _; rfl
  | cons y t ih =>
    intro a h
    have hy : y ≤ a := h y (List.mem_cons_self _ _)
    simp only [List.foldl_cons, max_eq_left hy]
    exact ih a (fun x hx => h x (List.mem_cons_of_mem _ hx))

theorem foldl_max_idem (l : List ℚ) (M : ℚ) :
    l.foldl max (l.foldl max M) = l.foldl max M :=
  foldl_max_of_le l _ (fun x hx => foldl_max_mem_le l M x hx)

theorem foldl_minUpd_some (l : List ℚ) : ∀ v : ℚ,
    l.foldl minUpd (some v) = some (l.foldl min v) := by
  induction l with
  | nil => intro v; rfl
  | cons x t ih =>
    intro v
    simp only [List.foldl_cons, minUpd, ih]

theorem foldl_minUpd_idem (l : List ℚ) (m : Option ℚ) :
    l.foldl minUpd (l.foldl minUpd m) = l.foldl minUpd m := by
  cases l with
  | nil => rfl
  | cons d t =>
    obtain ⟨w0, hw0, hw0d⟩ : ∃ w0, minUpd m d = some w0 ∧ w0 ≤ d := by
      cases m with
      | none => exact ⟨d, rfl, le_refl d⟩
      | some v => exact ⟨min v d, rfl, min_le_right _ _⟩
    have hX : List.foldl minUpd m (d :: t) = some (t.foldl min w0) := by
      rw [List.foldl_cons, hw0, foldl_minUpd_some]
    rw [hX, List.foldl_cons]
    have hwd : t.foldl min w0 ≤ d := le_trans (foldl_min_le_init t w0) hw0d
    have h1 : minUpd (some (t.foldl min w0)) d = some (min (t.foldl min w0) d) := rfl
    rw [h1, min_eq_left hwd, foldl_minUpd_some]
    congr 1
    exact foldl_min_of_le t _ (fun x hx => foldl_min_le_mem t w0 x hx)

theorem dlookup_cons {V : Type} (k0 : String) (v0 : V) (t : List (String × V))
    (k' : String) :
    dlookup ((k0, v0) :: t) k' = if k0 = k' then some v0 else dlookup t k' := rfl

theorem dlookup_dset {V : Type} (d : List (String × V)) (k k' : String) (v : V) :
    dlookup (dset d k v) k' = if k' = k then some v else dlookup d k' := by
  induction d with
  | nil =>
    simp only [dset, dlookup]
    split_ifs <;> try rfl
    all_goals rename_i h1 h2
    all_goals first | exact absurd h1.symm h2 | exact absurd h2.symm h1
  | cons e t ih =>
    obtain ⟨k0, v0⟩ := e
    simp only [dset]
    by_cases h0 : k0 = k
    · subst h0
      simp only [if_pos rfl, dlookup]
      split_ifs <;> try rfl
      all_goals rename_i h1 h2
      all_goals first | exact absurd h1.symm h2 | exact absurd h2.symm h1
    · simp only [if_neg h0, dlookup_cons, ih]
      split_ifs <;> try rfl
      all_goals rename_i h1 h2
      exact absurd (h1.trans h2) h0

theorem dlookup_dsetAll {V : Type} (ps : List (String × V)) :
    ∀ (d : List (String × V)) (k : String),
      dlookup (dsetAll d ps) k = optOr (lastVal ps k) (dlookup d k) := by
  induction ps with
  | nil => intro d k; simp [dsetAll, lastVal, optOr]
  | cons p t ih =>
    intro d k
    have h0 : dsetAll d (p :: t) = dsetAll (dset d p.1 p.2) t := rfl
    rw [h0, ih, dlookup_dset]
    cases hlv : lastVal t k with
    | some v => simp [lastVal, hlv, optOr]
    | none =>
      simp only [lastVal, hlv, optOr]
      split_ifs <;> try rfl
      all_goals rename_i h1 h2
      all_goals first | exact absurd h1.symm h2 | exact absurd h2.symm h1

theorem dmem_iff_keys {V : Type} (d : List (String × V)) (k : String) :
    dmem k d = true ↔ k ∈ dkeys d := by
  induction d with
  | nil => simp [dmem, dlookup, dkeys]
  | cons e t ih =>
    obtain ⟨k0, v0⟩ := e
    simp only [dmem, dlookup_cons, dkeys, List.map_cons, List.mem_cons]
    by_cases h : k0 = k
    · subst h; simp
    · rw [if_neg h]
      simp only [dmem, dkeys] at ih
      rw [ih]
      constructor
      · intro hh; right; exact hh
      · intro hh
        rcases hh with hh | hh
        · exact absurd hh.symm h
        · exact hh

theorem dkeys_dset {V : Type} (d : List (String × V)) (k : String) (v : V) :
    dkeys (dset d k v) =
      if dmem k d then dkeys d else dkeys d ++ [k] := by
  induction d with
  | nil => simp [dset, dkeys, dmem, dlookup]
  | cons e t ih =>
    obtain ⟨k0, v0⟩ := e
    simp only [dset, dmem, dlookup_cons]
    by_cases h : k0 = k
    · subst h
      simp [dkeys]
    · simp only [if_neg h]
      simp only [dmem] at ih
      by_cases h2 : (dlookup t k).isSome = true
      · simp only [h2, if_true] at ih
        simp only [dkeys] at ih
        simp [h2, dkeys, ih]
      · simp only [Bool.not_eq_true] at h2
        simp only [h2, Bool.false_eq_true, if_false] at ih
        simp only [dkeys] at ih
        simp [h2, dkeys, ih]

theorem dlookup_eq_none_of_not_mem {V : Type} (d : List (String × V)) (k : String)
    (h : k ∉ dkeys d) : dlookup d k = none := by
  induction d with
  | nil => rfl
  | cons e t ih =>
    obtain ⟨k0, v0⟩ := e
    simp only [dkeys, List.map_cons, List.mem_cons, not_or] at h
    rw [dlookup_cons, if_neg (fun hh => h.1 (by simp [hh]))]
    exact ih (by simpa [dkeys] using h.2)

theorem nodupKeys_dset {V : Type} (d : List (String × V)) (k : String) (v : V)
    (h : (dkeys d).Nodup) : (dkeys (dset d k v)).Nodup := by
  rw [dkeys_dset]
  by_cases hm : dmem k d = true
  · simp [hm, h]
  · simp only [Bool.not_eq_true] at hm
    simp only [hm, Bool.false_eq_true, if_false]
    have hk : k ∉ dkeys d := by
      intro hk
      rw [(dmem_iff_keys d k).mpr hk] at hm
      cases hm
    simp [List.nodup_append, h, hk]

theorem nodupKeys_dsetAll {V : Type} (ps : List (String × V)) :
    ∀ d : List (String × V), (dkeys d).Nodup → (dkeys (dsetAll d ps)).Nodup := by
  induction ps with
  | nil => intro d h; exact h
  | cons p t ih =>
    intro d h
    exact ih _ (nodupKeys_dset d p.1 p.2 h)

theorem dmem_of_dkeys_eq {V : Type} {d d' : List (String × V)} (k : String)
    (hkeys : dkeys d = dkeys d') (h : dmem k d = true) : dmem k d' = true := by
  rw [dmem_iff_keys] at h ⊢
  rw [← hkeys]
  exact h

theorem dkeys_dsetAll_stable {V : Type} (ps : List (String × V)) :
    ∀ d : List (String × V), (∀ p ∈ ps, dmem p.1 d = true) →
      dkeys (dsetAll d ps) = dkeys d := by
  induction ps with
  | nil => intro d _; rfl
  | cons p t ih =>
    intro d h
    have hp : dmem p.1 d = true := h p (List.mem_cons_self _ _)
    have hkeys : dkeys (dset d p.1 p.2) = dkeys d := by
      rw [dkeys_dset, if_pos hp]
    have h' : ∀ q ∈ t, dmem q.1 (dset d p.1 p.2) = true := by
      intro q hq
      exact dmem_of_dkeys_eq q.1 hkeys.symm (h q (List.mem_cons_of_mem _ hq))
    calc dkeys (dsetAll (dset d p.1 p.2) t) = dkeys (dset d p.1 p.2) := ih _ h'
      _ = dkeys d := hkeys

theorem lastVal_isSome_of_mem {V : Type} (ps : List (String × V)) :
    ∀ p ∈ ps, (lastVal ps p.1).isSome = true := by
  induction ps with
  | nil => intro p hp; simp at hp
  | cons q t ih =>
    intro p hp
    rcases List.mem_cons.mp hp with rfl | hp
    · simp only [lastVal]
      cases hlv : lastVal t p.1 with
      | some v => simp [optOr]
      | none => simp [optOr]
    · simp only [lastVal]
      have := ih p hp
      cases hlv : lastVal t p.1 with
      | some v => simp [optOr]
      | none => rw [hlv] at this; cases this

theorem dmem_dsetAll_of_mem {V : Type} (ps : List (String × V))
    (d : List (String × V)) (p : String × V) (hp : p ∈ ps) :
    dmem p.1 (dsetAll d ps) = true := by
  have h1 := dlookup_dsetAll ps d p.1
  have h2 := lastVal_isSome_of_mem ps p hp
  simp only [dmem, h1]
  cases hlv : lastVal ps p.1 with
  | some v => simp [optOr]
  | none => rw [hlv] at h2; cases h2

theorem dict_ext {V : Type} :
    ∀ (d1 d2 : List (String × V)), (dkeys d1).Nodup → (dkeys d2).Nodup →
      dkeys d1 = dkeys d2 → (∀ k, dlookup d1 k = dlookup d2 k) → d1 = d2 := by
  intro d1
  induction d1 with
  | nil =>
    intro d2 _ _ hkeys _
    cases d2 with
    | nil => rfl
    | cons e t => simp [dkeys] at hkeys
  | cons e t ih =>
    intro d2 hn1 hn2 hkeys hlook
    obtain ⟨k0, v0⟩ := e
    cases d2 with
    | nil => simp [dkeys] at hkeys
    | cons e2 t2 =>
      obtain ⟨k2, v2⟩ := e2
      simp only [dkeys, List.map_cons, List.cons.injEq] at hkeys
      obtain ⟨hk, hkt⟩ := hkeys
      subst hk
      have hv : v0 = v2 := by
        have := hlook k0
        simp only [dlookup_cons, eq_self_iff_true, if_true, Option.some.injEq] at this
        exact this
      subst hv
      simp only [dkeys, List.map_cons, List.nodup_cons] at hn1 hn2
      have htails : t = t2 := by
        apply ih t2 hn1.2 hn2.2 (by simpa [dkeys] using hkt)
        intro k
        by_cases hk0 : k0 = k
        · subst hk0
          rw [dlookup_eq_none_of_not_mem t k0 (by simpa [dkeys] using hn1.1),
            dlookup_eq_none_of_not_mem t2 k0 (by simpa [dkeys] using hn2.1)]
        · have := hlook k
          simpa only [dlookup_cons, if_neg hk0] using this
      rw [htails]

theorem dsetAll_idem {V : Type} (d : List (String × V)) (ps : List (String × V))
    (h : (dkeys d).Nodup) : dsetAll (dsetAll d ps) ps = dsetAll d ps := by
  have hn1 : (dkeys (dsetAll d ps)).Nodup := nodupKeys_dsetAll ps d h
  apply dict_ext _ _ (nodupKeys_dsetAll ps _ hn1) hn1
  · exact dkeys_dsetAll_stable ps _ (fun p hp => dmem_dsetAll_of_mem ps d p hp)
  · intro k
    rw [dlookup_dsetAll, dlookup_dsetAll]
    cases lastVal ps k with
    | some v => simp [optOr]
    | none => simp [optOr]

theorem calculate_basic_stats_spec (results : List WorkerResultRec)
    (agg : AggregatedResults) :
    calculate_basic_stats results agg =
      { agg with
          total_scenarios := results.length,
          successful_scenarios := agg.successful_scenarios + succCount results,
          failed_scenarios := agg.failed_scenarios + failCount results,
          total_duration := agg.total_duration + qsum (durList results),
          min_duration := (durList results).foldl minUpd agg.min_duration,
          max_duration := (durList results).foldl max agg.max_duration,
          scenario_results := dsetAll agg.scenario_results
            (results.map (fun r => (r.scenario_name, summaryOf r))),
          success_rate := if 0 < results.length then
              ((agg.successful_scenarios + succCount results : Nat) : ℚ) /
                (results.length : Nat)
            else agg.success_rate,
          average_duration := if 0 < results.length then
              (agg.total_duration + qsum (durList results)) / (results.length : Nat)
            else agg.average_duration } := by
  unfold calculate_basic_stats
  simp only [foldl_basicStep_spec]
  by_cases h : 0 < results.length
  · simp [h]
  · simp [h]

theorem succCount_add_failCount (l : List WorkerResultRec) :
    succCount l + failCount l = l.length := by
  induction l with
  | nil => rfl
  | cons r t ih =>
    by_cases h : r.success = true
    · simp [succCount, failCount, List.filter_cons, h] at ih ⊢
      omega
    · simp only [Bool.not_eq_true] at h
      simp [succCount, failCount, List.filter_cons, h] at ih ⊢
      omega

theorem aggregateAgg_stats (rs : List WorkerResultRec) (agg0 : AggregatedResults) :
    (aggregateAgg rs agg0).total_scenarios =
        (calculate_basic_stats rs agg0).total_scenarios ∧
      (aggregateAgg rs agg0).successful_scenarios =
        (calculate_basic_stats rs agg0).successful_scenarios ∧
      (aggregateAgg rs agg0).failed_scenarios =
        (calculate_basic_stats rs agg0).failed_scenarios ∧
      (aggregateAgg rs agg0).success_rate =
        (calculate_basic_stats rs agg0).success_rate ∧
      (aggregateAgg rs agg0).total_duration =
        (calculate_basic_stats rs agg0).total_duration ∧
      (aggregateAgg rs agg0).average_duration =
        (calculate_basic_stats rs agg0).average_duration ∧
      (aggregateAgg rs agg0).min_duration =
        (calculate_basic_stats rs agg0).min_duration ∧
      (aggregateAgg rs agg0).max_duration =
        (calculate_basic_stats rs agg0).max_duration ∧
      (aggregateAgg rs agg0).scenario_results =
        (calculate_basic_stats rs agg0).scenario_results ∧
      (aggregateAgg rs agg0).common_errors = (analyze_errors rs).1 ∧
      (aggregateAgg rs agg0).error_patterns = (analyze_errors rs).2 ∧
      (aggregateAgg rs agg0).common_findings = (analyze_findings rs).1 ∧
      (aggregateAgg rs agg0).root_causes = (analyze_findings rs).2 ∧
      (aggregateAgg rs agg0).performance_metrics = (analyze_performance rs).1 ∧
      (aggregateAgg rs agg0).test_data_usage = (analyze_performance rs).2 ∧
      (aggregateAgg rs agg0).timeline = build_timeline rs := by
  repeat' apply And.intro
  all_goals rfl

theorem cbs_total (rs : List WorkerResultRec) (agg0 : AggregatedResults) :
    (calculate_basic_stats rs agg0).total_scenarios = rs.length := by
  rw [calculate_basic_stats_spec]

theorem cbs_succ (rs : List WorkerResultRec) (agg0 : AggregatedResults) :
    (calculate_basic_stats rs agg0).successful_scenarios =
      agg0.successful_scenarios + succCount rs := by
  rw [calculate_basic_stats_spec]

theorem cbs_failed (rs : List WorkerResultRec) (agg0 : AggregatedResults) :
    (calculate_basic_stats rs agg0).failed_scenarios =
      agg0.failed_scenarios + failCount rs := by
  rw [calculate_basic_stats_spec]

theorem cbs_td (rs : List WorkerResultRec) (agg0 : AggregatedResults) :
    (calculate_basic_stats rs agg0).total_duration =
      agg0.total_duration + qsum (durList rs) := by
  rw [calculate_basic_stats_spec]

theorem cbs_min (rs : List WorkerResultRec) (agg0 : AggregatedResults) :
    (calculate_basic_stats rs agg0).min_duration =
      (durList rs).foldl minUpd agg0.min_duration := by
  rw [calculate_basic_stats_spec]

theorem cbs_max (rs : List WorkerResultRec) (agg0 : AggregatedResults) :
    (calculate_basic_stats rs agg0).max_duration =
      (durList rs).foldl max agg0.max_duration := by
  rw [calculate_basic_stats_spec]

theorem cbs_sr (rs : List WorkerResultRec) (agg0 : AggregatedResults) :
    (calculate_basic_stats rs agg0).scenario_results =
      dsetAll agg0.scenario_results
        (rs.map (fun r => (r.scenario_name, summaryOf r))) := by
  rw [calculate_basic_stats_spec]

theorem cbs_rate (rs : List WorkerResultRec) (agg0 : AggregatedResults) :
    (calculate_basic_stats rs agg0).success_rate =
      if 0 < rs.length then
        ((agg0.successful_scenarios + succCount rs : Nat) : ℚ) / (rs.length : Nat)
      else agg0.success_rate := by
  rw [calculate_basic_stats_spec]

theorem cbs_avg (rs : List WorkerResultRec) (agg0 : AggregatedResults) :
    (calculate_basic_stats rs agg0).average_duration =
      if 0 < rs.length then
        (agg0.total_duration + qsum (durList rs)) / (rs.length : Nat)
      else agg0.average_duration := by
  rw [calculate_basic_stats_spec]

theorem aggregateAgg_twice (rs : List WorkerResultRec) :
    (aggregateAgg rs (aggregateAgg rs {})).total_scenarios
        = (aggregateAgg rs {}).total_scenarios ∧
      (aggregateAgg rs (aggregateAgg rs {})).successful_scenarios
        = 2 * (aggregateAgg rs {}).successful_scenarios ∧
      (aggregateAgg rs (aggregateAgg rs {})).failed_scenarios
        = 2 * (aggregateAgg rs {}).failed_scenarios ∧
      (aggregateAgg rs (aggregateAgg rs {})).total_duration
        = 2 * (aggregateAgg rs {}).total_duration ∧
      (aggregateAgg rs (aggregateAgg rs {})).success_rate
        = 2 * (aggregateAgg rs {}).success_rate ∧
      (aggregateAgg rs (aggregateAgg rs {})).average_duration
        = 2 * (aggregateAgg rs {}).average_duration ∧
      (aggregateAgg rs (aggregateAgg rs {})).min_duration
        = (aggregateAgg rs {}).min_duration ∧
      (aggregateAgg rs (aggregateAgg rs {})).max_duration
        = (aggregateAgg rs {}).max_duration ∧
      (aggregateAgg rs (aggregateAgg rs {})).scenario_results
        = (aggregateAgg rs {}).scenario_results ∧
      (aggregateAgg rs (aggregateAgg rs {})).common_errors
        = (aggregateAgg rs {}).common_errors ∧
      (aggregateAgg rs (aggregateAgg rs {})).error_patterns
        = (aggregateAgg rs {}).error_patterns ∧
      (aggregateAgg rs (aggregateAgg rs {})).common_findings
        = (aggregateAgg rs {}).common_findings ∧
      (aggregateAgg rs (aggregateAgg rs {})).root_causes
        = (aggregateAgg rs {}).root_causes ∧
      (aggregateAgg rs (aggregateAgg rs {})).performance_metrics
        = (aggregateAgg rs {}).performance_metrics ∧
      (aggregateAgg rs (aggregateAgg rs {})).test_data_usage
        = (aggregateAgg rs {}).test_data_usage ∧
      (aggregateAgg rs (aggregateAgg rs {})).timeline
        = (aggregateAgg rs {}).timeline := by
  obtain ⟨T0, S0, F0, R0, TD0, AV0, MN0, MX0, SR0, CE0, EP0, CF0, RC0, PM0, TU0, TL0⟩ :=
    aggregateAgg_stats rs ({} : AggregatedResults)
  obtain ⟨T1, S1, F1, R1, TD1, AV1, MN1, MX1, SR1, CE1, EP1, CF1, RC1, PM1, TU1, TL1⟩ :=
    aggregateAgg_stats rs (aggregateAgg rs ({} : AggregatedResults))
  refine ⟨?_, ?_, ?_, ?_, ?_, ?_, ?_, ?_, ?_, ?_, ?_, ?_, ?_, ?_, ?_, ?_⟩
  · rw [T1, T0, cbs_total, cbs_total]
  · rw [S1, cbs_succ, S0, cbs_succ]
    show 0 + succCount rs + succCount rs = 2 * (0 + succCount rs)
    omega
  · rw [F1, cbs_failed, F0, cbs_failed]
    show 0 + failCount rs + failCount rs = 2 * (0 + failCount rs)
    omega
  · rw [TD1, cbs_td, TD0, cbs_td]
    show 0 + qsum (durList rs) + qsum (durList rs) = 2 * (0 + qsum (durList rs))
    ring
  · rw [R1, cbs_rate, S0, cbs_succ, R0, cbs_rate]
    by_cases hN : 0 < rs.length
    · simp only [hN, if_true]
      show (((0 + succCount rs) + succCount rs : Nat) : ℚ) / (rs.length : Nat) =
        2 * (((0 + succCount rs : Nat) : ℚ) / (rs.length : Nat))
      push_cast
      ring
    · simp only [hN, if_false]
      show (0 : ℚ) = 2 * (0 : ℚ)
      ring
  · rw [AV1, cbs_avg, TD0, cbs_td, AV0, cbs_avg]
    by_cases hN : 0 < rs.length
    · simp only [hN, if_true]
      ring
    · simp only [hN, if_false]
      show (0 : ℚ) = 2 * (0 : ℚ)
      ring
  · rw [MN1, cbs_min, MN0, cbs_min]
    show (durList rs).foldl minUpd ((durList rs).foldl minUpd none) =
      (durList rs).foldl minUpd none
    exact foldl_minUpd_idem _ _
  · rw [MX1, cbs_max, MX0, cbs_max]
    show (durList rs).foldl max ((durList rs).foldl max 0) = (durList rs).foldl max 0
    exact foldl_max_idem _ _
  · rw [SR1, cbs_sr, SR0, cbs_sr]
    show dsetAll (dsetAll [] (rs.map (fun r => (r.scenario_name, summaryOf r))))
        (rs.map (fun r => (r.scenario_name, summaryOf r))) =
      dsetAll [] (rs.map (fun r => (r.scenario_name, summaryOf r)))
    exact dsetAll_idem [] _ (by simp [dkeys])
  · rw [CE1, CE0]
  · rw [EP1, EP0]
  · rw [CF1, CF0]
  · rw [RC1, RC0]
  · rw [PM1, PM0]
  · rw [TU1, TU0]
  · rw [TL1, TL0]

/-- C8: one `aggregate()` call on a fresh aggregator holding N results with K
successes sets `total_scenarios = N`, `successful_scenarios = K`,
`failed_scenarios = N - K` and `success_rate = K/N`; with no results the
returned `AggregatedResults` keeps the default `success_rate = 0.0`. -/
theorem success_rate_correct :
    (∀ results : List WorkerResultRec,
      (aggregate { worker_results := results }).aggregated_results.total_scenarios
          = results.length ∧
        (aggregate { worker_results := results }).aggregated_results.successful_scenarios
          = succCount results ∧
        (aggregate { worker_results := results }).aggregated_results.failed_scenarios
          = results.length - succCount results ∧
        (aggregate { worker_results := results }).aggregated_results.success_rate
          = (succCount results : ℚ) / (results.length : Nat)) ∧
    (aggregate { worker_results := [] }).aggregated_results.success_rate = 0 := by
  constructor
  · intro results
    cases results with
    | nil =>
      refine ⟨rfl, rfl, rfl, ?_⟩
      show (0 : ℚ) = (succCount [] : ℚ) / ((0 : Nat) : ℚ)
      simp [succCount]
    | cons r t =>
      have hagg : (aggregate { worker_results := r :: t }).aggregated_results
          = aggregateAgg (r :: t) {} := by
        simp [aggregate, List.isEmpty]
      obtain ⟨T0, S0, F0, R0, _⟩ := aggregateAgg_stats (r :: t) ({} : AggregatedResults)
      rw [hagg]
      have hN : 0 < (r :: t).length := by simp
      refine ⟨?_, ?_, ?_, ?_⟩
      · rw [T0, cbs_total]
      · rw [S0, cbs_succ]
        show 0 + succCount (r :: t) = succCount (r :: t)
        omega
      · rw [F0, cbs_failed]
        have := succCount_add_failCount (r :: t)
        show 0 + failCount (r :: t) = (r :: t).length - succCount (r :: t)
        omega
      · rw [R0, cbs_rate]
        simp only [hN, if_true]
        show (((0 + succCount (r :: t) : Nat)) : ℚ) / (((r :: t).length : Nat) : ℚ) = _
        norm_num
  · rfl

theorem aggregate_cons (r : WorkerResultRec) (t : List WorkerResultRec)
    (agg0 : AggregatedResults) :
    aggregate { worker_results := r :: t, aggregated_results := agg0 } =
      { worker_results := r :: t,
        aggregated_results := aggregateAgg (r :: t) agg0 } := by
  simp [aggregate, List.isEmpty]

/-- C1 counterexample: with a single successful result added, the first
`aggregate()` reports `successful_scenarios = 1` but a second call (no new
results) reports `2` — the two calls do not produce field-by-field equal
`AggregatedResults`. -/
theorem aggregate_twice_changes_counts_cex :
    (aggregate { worker_results := [c1Result] }).aggregated_results.successful_scenarios
        = 1 ∧
      (aggregate (aggregate { worker_results := [c1Result]
        })).aggregated_results.successful_scenarios = 2 ∧
      (aggregate (aggregate { worker_results := [c1Result] })).aggregated_results ≠
        (aggregate { worker_results := [c1Result] }).aggregated_results := by
  have h1 : (aggregate { worker_results := [c1Result]
      }).aggregated_results.successful_scenarios = 1 := by
    rw [aggregate_cons]
    show (aggregateAgg [c1Result] {}).successful_scenarios = 1
    obtain ⟨_, S0, _⟩ := aggregateAgg_stats [c1Result] ({} : AggregatedResults)
    rw [S0, cbs_succ]
    decide
  have h2 : (aggregate (aggregate { worker_results := [c1Result]
      })).aggregated_results.successful_scenarios = 2 := by
    rw [aggregate_cons, aggregate_cons]
    show (aggregateAgg [c1Result] (aggregateAgg [c1Result] {})).successful_scenarios = 2
    obtain ⟨_, S1, _⟩ :=
      aggregateAgg_stats [c1Result] (aggregateAgg [c1Result] ({} : AggregatedResults))
    obtain ⟨_, S0, _⟩ := aggregateAgg_stats [c1Result] ({} : AggregatedResults)
    rw [S1, cbs_succ, S0, cbs_succ]
    decide
  refine ⟨h1, h2, fun heq => ?_⟩
  have hc := congrArg AggregatedResults.successful_scenarios heq
  rw [h1, h2] at hc
  exact absurd hc (by decide)

/-- C1 amended: a second `aggregate()` call without new results is NOT
idempotent.  It leaves `total_scenarios`, `min_duration`, `max_duration`,
`scenario_results` and every recomputed analyzer field (`common_errors`,
`error_patterns`, `common_findings`, `root_causes`, `performance_metrics`,
`test_data_usage`, `timeline`) unchanged, but accumulates the loop counters
again: `successful_scenarios`, `failed_scenarios`, `total_duration`,
`success_rate` and `average_duration` all double (`recommendations` are then
recomputed from the doubled statistics and may change). -/
theorem aggregate_second_call_effects (results : List WorkerResultRec) :
    (aggregate (aggregate { worker_results := results
        })).aggregated_results.total_scenarios
        = (aggregate { worker_results := results
        }).aggregated_results.total_scenarios ∧
      (aggregate (aggregate { worker_results := results
        })).aggregated_results.successful_scenarios
        = 2 * (aggregate { worker_results := results
        }).aggregated_results.successful_scenarios ∧
      (aggregate (aggregate { worker_results := results
        })).aggregated_results.failed_scenarios
        = 2 * (aggregate { worker_results := results
        }).aggregated_results.failed_scenarios ∧
      (aggregate (aggregate { worker_results := results
        })).aggregated_results.total_duration
        = 2 * (aggregate { worker_results := results
        }).aggregated_results.total_duration ∧
      (aggregate (aggregate { worker_results := results
        })).aggregated_results.success_rate
        = 2 * (aggregate { worker_results := results
        }).aggregated_results.success_rate ∧
      (aggregate (aggregate { worker_results := results
        })).aggregated_results.average_duration
        = 2 * (aggregate { worker_results := results
        }).aggregated_results.average_duration ∧
      (aggregate (aggregate { worker_results := results
        })).aggregated_results.min_duration
        = (aggregate { worker_results := results
        }).aggregated_results.min_duration ∧
      (aggregate (aggregate { worker_results := results
        })).aggregated_results.max_duration
        = (aggregate { worker_results := results
        }).aggregated_results.max_duration ∧
      (aggregate (aggregate { worker_results := results
        })).aggregated_results.scenario_results
        = (aggregate { worker_results := results
        }).aggregated_results.scenario_results ∧
      (aggregate (aggregate { worker_results := results
        })).aggregated_results.common_errors
        = (aggregate { worker_results := results
        }).aggregated_results.common_errors ∧
      (aggregate (aggregate { worker_results := results
        })).aggregated_results.error_patterns
        = (aggregate { worker_results := results
        }).aggregated_results.error_patterns ∧
      (aggregate (aggregate { worker_results := results
        })).aggregated_results.common_findings
        = (aggregate { worker_results := results
        }).aggregated_results.common_findings ∧
      (aggregate (aggregate { worker_results := results
        })).aggregated_results.root_causes
        = (aggregate { worker_results := results
        }).aggregated_results.root_causes ∧
      (aggregate (aggregate { worker_results := results
        })).aggregated_results.performance_metrics
        = (aggregate { worker_results := results
        }).aggregated_results.performance_metrics ∧
      (aggregate (aggregate { worker_results := results
        })).aggregated_results.test_data_usage
        = (aggregate { worker_results := results
        }).aggregated_results.test_data_usage ∧
      (aggregate (aggregate { worker_results := results
        })).aggregated_results.timeline
        = (aggregate { worker_results := results
        }).aggregated_results.timeline := by
  cases results with
  | nil =>
    refine ⟨rfl, by simp [aggregate], by simp [aggregate], by simp [aggregate],
      by simp [aggregate], by simp [aggregate], rfl, rfl, rfl, rfl,
      rfl, rfl, rfl, rfl, rfl, rfl⟩
  | cons r t =>
    rw [aggregate_cons, aggregate_cons]
    exact aggregateAgg_twice (r :: t)

theorem nodupKeys_derase {V : Type} (d : List (String × V)) (k : String)
    (h : (dkeys d).Nodup) : (dkeys (derase d k)).Nodup := by
  have hsub := (derase_sublist d k).map (fun p : String × V => p.1)
  exact h.sublist hsub

theorem start_worker_id (st : OrchState) (scenario : TestScenario) (wid : String)
    (h : (start_worker st scenario).1 = some wid) :
    wid = "worker_" ++ toString st.workers.length := by
  unfold start_worker at h
  dsimp only at h
  rcases h1 : (allocate_ports st.config ("worker_" ++ toString st.workers.length) 2).1
    with e | ports
  · rw [h1] at h
    simp at h
  · rw [h1] at h
    simp only [Option.some.injEq] at h
    exact h.symm

theorem workers_nodup_invariant (ops : List SchedOp) :
    ∀ st : OrchState, (dkeys st.workers).Nodup →
      (dkeys (runSched st ops).workers).Nodup := by
  induction ops with
  | nil => intro st h; exact h
  | cons op t ih =>
    intro st h
    apply ih
    cases op with
    | startNext =>
      show (dkeys (schedStep st .startNext).workers).Nodup
      unfold schedStep
      rcases hq : st.scenario_queue with _ | ⟨scenario, rest⟩ <;> simp only [hq]
      · exact h
      · by_cases hcap : st.active_workers.length < st.config.resource_config.max_workers
        · simp only [hcap, if_true]
          unfold start_worker
          dsimp only
          rcases h1 : (allocate_ports st.config
              ("worker_" ++ toString st.workers.length) 2).1 with e | ports
          · simp only [h1]
            exact h
          · simp only [h1]
            exact nodupKeys_dset _ _ _ h
        · simp only [hcap, if_false]
          exact h
    | completeWorker wid =>
      show (dkeys (schedStep st (.completeWorker wid)).workers).Nodup
      unfold schedStep
      by_cases hg : (dmem wid st.workers && dmem wid st.active_workers) = true
      · simp only [hg, if_true]
        exact nodupKeys_derase _ _ h
      · simp only [Bool.not_eq_true] at hg
        simp only [hg, Bool.false_eq_true, if_false]
        exact h

/-- C3 counterexample: with `max_workers = 1` and two scenarios, the first
worker (`worker_0`) completes before the second scenario starts, so
`len(self.workers)` is back to 0 and the second scenario is ALSO assigned
`worker_0` — the identifiers issued during one run are not pairwise
distinct, and the second start is not `worker_{number started so far}`. -/
theorem worker_ids_reused_cex :
    (runSched (mkOrchState [c3ScenarioA, c3ScenarioB] { max_workers := 1 })
        [.startNext, .completeWorker "worker_0", .startNext]).started_ids
      = ["worker_0", "worker_0"] ∧
    ¬ (runSched (mkOrchState [c3ScenarioA, c3ScenarioB] { max_workers := 1 })
        [.startNext, .completeWorker "worker_0", .startNext]).started_ids.Nodup := by
  constructor
  · decide
  · decide

/-- C3 amended: `_start_worker` assigns `worker_{N}` where N is the number
of CURRENTLY TRACKED workers (`len(self.workers)`), not the number started
so far in the run; since completed workers are deleted from `self.workers`,
identifiers can be reused after a completion (see the counterexample).  The
identifiers of simultaneously tracked workers remain pairwise distinct (the
tracking dict's keys). -/
theorem worker_id_assignment :
    (∀ (st : OrchState) (scenario : TestScenario) (wid : String),
      (start_worker st scenario).1 = some wid →
      wid = "worker_" ++ toString st.workers.length) ∧
    (∀ (rc : ResourceConfig) (scenarios : List TestScenario) (ops : List SchedOp),
      (dkeys (runSched (mkOrchState scenarios rc) ops).workers).Nodup) :=
  ⟨start_worker_id, fun _ _ ops =>
    workers_nodup_invariant ops _ (by simp [mkOrchState, dkeys])⟩

/-- Witness for the amended C3: after `worker_0` completes, the next started
worker is again named from the current tracked count (0), and a concrete
two-start run keeps tracked ids distinct. -/
theorem worker_id_assignment_witness :
    ("worker_0" = "worker_" ++ toString (runSched (mkOrchState
        [c3ScenarioA, c3ScenarioB] { max_workers := 1 })
        [.startNext, .completeWorker "worker_0"]).workers.length) ∧
    (dkeys (runSched (mkOrchState [c3ScenarioA, c3ScenarioB] { max_workers := 2 })
        [.startNext, .startNext]).workers).Nodup := by
  constructor
  · exact worker_id_assignment.1 _ c3ScenarioB "worker_0" (by decide)
  · exact worker_id_assignment.2 { max_workers := 2 } [c3ScenarioA, c3ScenarioB]
      [.startNext, .startNext]

end AppTemplate
